import Mathlib

/-! The x_dsteg protocol binding of stegotorus

A shallow embedding of `src/protocols/x_dsteg.c` (the protocol binding that
wraps a steganography module chosen at configuration time or detected from
the first inbound bytes) and of the plugin interface of `src/steg.h`.

Pointers to owned objects are nested values: a circuit record holds its
downstream connection, a connection record holds its steg instance.  A
`NULL` pointer is `none`.  Calls into collaborators whose code is not part
of the two files (the steg dispatchers, the address resolver, libevent) are
taken from an environment record and written to a call log, so that
statements of the form "the operation is not invoked" can be expressed.
-/

namespace XDsteg

/-! ## Data model -/

/-- One byte of buffered data. -/
abbrev byte := Fin 256

/-- A libevent `struct evbuffer`: a queue of bytes, oldest byte first. -/
abbrev evbuffer := List byte

/-- The `listen_mode` enumeration stored in `config_t.mode`.  `LSN_ZERO` is
the value a zero-filled (`xzalloc`) configuration holds before the parser
assigns one of the three modes. -/
inductive listen_mode
  | LSN_ZERO
  | LSN_SIMPLE_CLIENT
  | LSN_SIMPLE_SERVER
  | LSN_SOCKS_CLIENT
  deriving DecidableEq, Repr

/-- The result of a successful address resolution (`struct evutil_addrinfo`);
only its identity matters to this file. -/
structure evutil_addrinfo where
  node : String
  service : String
  deriving DecidableEq, Repr

/-- The `x_dsteg_config_t` record: `config_t super` contributes `mode`. -/
structure x_dsteg_config_t where
  mode : listen_mode
  listen_addr : Option evutil_addrinfo
  target_addr : Option evutil_addrinfo
  stegname : Option String
  deriving DecidableEq, Repr

/-- A `steg_t` object as seen through the pointer `conn->steg`: `addr` is the
pointer value (the identity of the instance), `obj` the contents of the
object, which the module's methods may update in place. -/
structure steg_t (σ : Type) where
  addr : Nat
  obj : σ

/-- The `x_dsteg_conn_t` record: `conn_t super` contributes `cfg` and the
inbound and outbound buffers (`conn_get_inbound`, `conn_get_outbound`). -/
structure x_dsteg_conn_t (σ : Type) where
  cfg : x_dsteg_config_t
  steg : Option (steg_t σ)
  inbound : evbuffer
  outbound : evbuffer

/-- The `x_dsteg_circuit_t` record, which is just `circuit_t super`:
`up_input` is `bufferevent_get_input(up_buffer)` (bytes that arrived from
upstream and wait to be sent downstream), `up_output` is
`bufferevent_get_output(up_buffer)`, and `flush_timer` is `some ms` while the
flush timer is armed with a delay of `ms` milliseconds.  A connection `s` and
its circuit `s->circuit` point at each other, so the pair is represented by
the circuit record whose `downstream` holds `s`. -/
structure circuit_t (σ : Type) where
  cfg : x_dsteg_config_t
  downstream : Option (x_dsteg_conn_t σ)
  up_input : evbuffer
  up_output : evbuffer
  flush_timer : Option Nat

/-- The `recv_ret` enumeration. -/
inductive recv_ret
  | RECV_GOOD
  | RECV_INCOMPLETE
  | RECV_BAD
  deriving DecidableEq, Repr

/-- Ways in which a call does not return to its caller. -/
inductive fault
  | assertion_failure
  | null_dereference
  deriving DecidableEq, Repr

/-- A call into a collaborator, as recorded in the call log. -/
inductive call
  | resolve_address_port (address : String) (nodns passive : Int)
      (default_port : Option String)
  | steg_is_supported (name : String)
  | evutil_freeaddrinfo (a : evutil_addrinfo)
  | steg_new (name : Option String)
  | steg_detect
  | steg_transmit_room
  | steg_transmit (source : evbuffer)
  | steg_receive (inbound dest : evbuffer)
  | circuit_send
  | circuit_create
  | circuit_add_downstream
  | circuit_open_upstream
  deriving DecidableEq, Repr

/-- The collaborators of `x_dsteg.c` whose code is not in the two files.

* `resolve_address_port address nodns passive default_port` (util.c) yields
  the resolved address or `none` for `NULL`.
* `steg_is_supported`, `steg_new`, `steg_detect`, `steg_transmit_room`,
  `steg_transmit`, `steg_receive` are the steg dispatchers.  Following the
  method contracts written in `steg.h`: `transmit_room` reports a number,
  `transmit` consumes the chunk it is given, updates the instance and
  yields its result code and the new outbound buffer of the connection,
  `receive` updates the instance and yields its result code, the new
  inbound buffer of the connection and the new destination buffer, and
  `detect` inspects the connection without consuming anything.
* `evbuffer_new_ok` tells whether `evbuffer_new` yields a buffer, and
  `evbuffer_remove_ok` whether `evbuffer_remove_buffer` is able to move
  bytes. -/
structure env (σ : Type) where
  resolve_address_port : String → Int → Int → Option String → Option evutil_addrinfo
  steg_is_supported : String → Bool
  steg_new : Option String → Option (steg_t σ)
  steg_detect : x_dsteg_conn_t σ → Option (steg_t σ)
  steg_transmit_room : steg_t σ → x_dsteg_conn_t σ → Nat
  steg_transmit : steg_t σ → evbuffer → x_dsteg_conn_t σ → Int × σ × evbuffer
  steg_receive : steg_t σ → x_dsteg_conn_t σ → evbuffer → recv_ret × σ × evbuffer × evbuffer
  evbuffer_new_ok : Bool
  evbuffer_remove_ok : Bool

/-! ## libevent and circuit primitives -/

/-- The libevent call `evbuffer_remove_buffer(src, dst, datlen)`: moves the
first `min datlen |src|` bytes of `src` to the end of `dst` and returns their
number, or returns `-1` and moves nothing when it cannot proceed.  The
result is `(rv, src, dst)`. -/
def evbuffer_remove_buffer (ok : Bool) (src dst : evbuffer) (datlen : Nat) :
    Int × evbuffer × evbuffer :=
  if ok then
    (((src.take datlen).length : Nat), src.drop datlen, dst ++ src.take datlen)
  else
    (-1, src, dst)

/-- Modelled from the spec: `circuit_disarm_flush_timer` (connections.c is
not among the source files) cancels a pending flush timer. -/
def circuit_disarm_flush_timer {σ : Type} (c : circuit_t σ) : circuit_t σ :=
  { c with flush_timer := none }

/-- Modelled from the spec: `circuit_arm_flush_timer` (connections.c is not
among the source files) leaves the flush timer armed with the given delay. -/
def circuit_arm_flush_timer {σ : Type} (c : circuit_t σ) (milliseconds : Nat) :
    circuit_t σ :=
  { c with flush_timer := some milliseconds }

/-! ## Circuit operations -/

/-- What `x_dsteg_circuit_send` leaves behind when it returns: its return
value, the circuit (with its downstream connection) and the collaborator
calls it made, oldest first. -/
structure send_result (σ : Type) where
  rv : Int
  ckt : circuit_t σ
  calls : List call

/-- The tail of `x_dsteg_circuit_send` from `if (rv < 0)` on. -/
def circuit_send_finish {σ : Type} (rv : Int) (c : circuit_t σ) (calls : List call) :
    send_result σ :=
  if rv < 0 then
    ⟨-1, c, calls⟩
  else if c.up_input.length > 0 then
    ⟨0, circuit_arm_flush_timer c 200, calls⟩
  else
    ⟨0, c, calls⟩

/-- The function `x_dsteg_circuit_send`. -/
def x_dsteg_circuit_send {σ : Type} (E : env σ) (c : circuit_t σ) :
    Except fault (send_result σ) :=
  match c.downstream with
  | none => .error .null_dereference
  | some d =>
    let c := circuit_disarm_flush_timer c
    match d.steg with
    | none => .ok ⟨0, c, []⟩
    | some steg =>
      let room := E.steg_transmit_room steg d
      if room ≠ 0 then
        if E.evbuffer_new_ok then
          let r := evbuffer_remove_buffer E.evbuffer_remove_ok c.up_input [] room
          let c := { c with up_input := r.2.1 }
          if r.1 ≥ 0 then
            let t := E.steg_transmit steg r.2.2 d
            let d := { d with steg := some { steg with obj := t.2.1 }, outbound := t.2.2 }
            .ok (circuit_send_finish t.1 { c with downstream := some d }
              [.steg_transmit_room, .steg_transmit r.2.2])
          else
            .ok (circuit_send_finish r.1 c [.steg_transmit_room])
        else
          .ok ⟨-1, c, [.steg_transmit_room]⟩
      else
        .ok (circuit_send_finish 0 c [.steg_transmit_room])

/-- The chunks handed to `steg_transmit` in a call log, oldest first. -/
def transmitted : List call → List evbuffer
  | [] => []
  | .steg_transmit chunk :: rest => chunk :: transmitted rest
  | _ :: rest => transmitted rest

/-- Modelled from the spec: `obfs_assert` (util.h is not among the source
files) is fatal when its condition is false: the call does not return. -/
def obfs_assert (cond : Bool) : Except fault Unit :=
  if cond then .ok () else .error .assertion_failure

/-- The function `x_dsteg_circuit_add_downstream`. -/
def x_dsteg_circuit_add_downstream {σ : Type} (ckt : circuit_t σ) (conn : x_dsteg_conn_t σ) :
    Except fault (circuit_t σ) :=
  match obfs_assert ckt.downstream.isNone with
  | .error f => .error f
  | .ok _ => .ok { ckt with downstream := some conn }

/-! ## Configuration -/

/-- What `parse_and_set_options` leaves behind: its return value, the
configuration it was filling and the collaborator calls it made. -/
structure parse_result where
  rv : Int
  cfg : x_dsteg_config_t
  calls : List call
  deriving DecidableEq, Repr

/-- The argument `options[i]`. -/
def option_at (options : List String) (i : Nat) : String :=
  options.getD i ""

/-- The `strcmp` chain of `parse_and_set_options` on `options[0]`: the
default port, the mode and the required number of options. -/
def mode_of_token (tok : String) : Option (String × listen_mode × Nat) :=
  if tok = "client" then some ("48988", .LSN_SIMPLE_CLIENT, 4)
  else if tok = "socks" then some ("23548", .LSN_SOCKS_CLIENT, 3)
  else if tok = "server" then some ("11253", .LSN_SIMPLE_SERVER, 3)
  else none

/-- The last block of `parse_and_set_options`: the steg name. -/
def parse_stegname {σ : Type} (E : env σ) (options : List String) (c : x_dsteg_config_t)
    (calls : List call) : parse_result :=
  if c.mode ≠ .LSN_SIMPLE_SERVER then
    let name := option_at options (if c.mode = .LSN_SOCKS_CLIENT then 2 else 3)
    let c := { c with stegname := some name }
    if E.steg_is_supported name then
      ⟨0, c, calls ++ [.steg_is_supported name]⟩
    else
      ⟨-1, c, calls ++ [.steg_is_supported name]⟩
  else
    ⟨0, c, calls⟩

/-- The middle block of `parse_and_set_options`: the target address. -/
def parse_target {σ : Type} (E : env σ) (options : List String) (c : x_dsteg_config_t)
    (calls : List call) : parse_result :=
  if c.mode ≠ .LSN_SOCKS_CLIENT then
    let a := E.resolve_address_port (option_at options 2) 1 0 none
    let c := { c with target_addr := a }
    let calls := calls ++ [.resolve_address_port (option_at options 2) 1 0 none]
    if a.isNone then ⟨-1, c, calls⟩ else parse_stegname E options c calls
  else
    parse_stegname E options c calls

/-- The function `parse_and_set_options`; `n_options` is the length of
`options`. -/
def parse_and_set_options {σ : Type} (E : env σ) (options : List String)
    (c : x_dsteg_config_t) : parse_result :=
  if options.length < 1 then
    ⟨-1, c, []⟩
  else
    match mode_of_token (option_at options 0) with
    | none => ⟨-1, c, []⟩
    | some (defport, mode, req_options) =>
      let c := { c with mode := mode }
      if options.length ≠ req_options then
        ⟨-1, c, []⟩
      else
        let a := E.resolve_address_port (option_at options 1) 1 1 (some defport)
        let c := { c with listen_addr := a }
        let calls := [call.resolve_address_port (option_at options 1) 1 1 (some defport)]
        if a.isNone then ⟨-1, c, calls⟩ else parse_target E options c calls

/-- The function `x_dsteg_config_free`: the addresses it releases. -/
def x_dsteg_config_free (c : x_dsteg_config_t) : List call :=
  (match c.listen_addr with
    | some a => [call.evutil_freeaddrinfo a]
    | none => []) ++
  (match c.target_addr with
    | some a => [call.evutil_freeaddrinfo a]
    | none => [])

/-- The configuration `xzalloc` hands to `x_dsteg_config_create`. -/
def zeroed_config : x_dsteg_config_t :=
  ⟨.LSN_ZERO, none, none, none⟩

/-- The function `x_dsteg_config_create`: the configuration it returns
(`none` for `NULL`) and the collaborator calls it made. -/
def x_dsteg_config_create {σ : Type} (E : env σ) (options : List String) :
    Option x_dsteg_config_t × List call :=
  let r := parse_and_set_options E options zeroed_config
  if r.rv = 0 then
    (some r.cfg, r.calls)
  else
    (none, r.calls ++ x_dsteg_config_free r.cfg)

/-- The function `x_dsteg_config_get_listen_addrs`. -/
def x_dsteg_config_get_listen_addrs (cfg : x_dsteg_config_t) (n : Nat) :
    Option evutil_addrinfo :=
  if n > 0 then none else cfg.listen_addr

/-- The function `x_dsteg_config_get_target_addr`. -/
def x_dsteg_config_get_target_addr (cfg : x_dsteg_config_t) : Option evutil_addrinfo :=
  cfg.target_addr

/-- The function `x_dsteg_circuit_create`: a zero-filled circuit with its
configuration set. -/
def x_dsteg_circuit_create {σ : Type} (c : x_dsteg_config_t) : circuit_t σ :=
  ⟨c, none, [], [], none⟩

/-! ## Connection operations -/

/-- The function `x_dsteg_conn_create`: the connection it returns (`none`
for `NULL`) and the collaborator calls it made. -/
def x_dsteg_conn_create {σ : Type} (E : env σ) (c : x_dsteg_config_t) :
    Option (x_dsteg_conn_t σ) × List call :=
  if c.mode ≠ .LSN_SIMPLE_SERVER then
    match E.steg_new c.stegname with
    | none => (none, [.steg_new c.stegname])
    | some steg => (some ⟨c, some steg, [], []⟩, [.steg_new c.stegname])
  else
    (some ⟨c, none, [], []⟩, [])

/-- The function `x_dsteg_conn_handshake`. -/
def x_dsteg_conn_handshake {σ : Type} (conn : x_dsteg_conn_t σ) : Int × x_dsteg_conn_t σ :=
  (0, conn)

/-- The function `x_dsteg_conn_send_eof`. -/
def x_dsteg_conn_send_eof {σ : Type} (dest : x_dsteg_conn_t σ) : Int × x_dsteg_conn_t σ :=
  (0, dest)

/-- The function `x_dsteg_conn_recv_eof`. -/
def x_dsteg_conn_recv_eof {σ : Type} (source : x_dsteg_conn_t σ) :
    recv_ret × x_dsteg_conn_t σ :=
  (.RECV_GOOD, source)

/-- The function `x_dsteg_conn_expect_close`. -/
def x_dsteg_conn_expect_close {σ : Type} (conn : x_dsteg_conn_t σ) : x_dsteg_conn_t σ :=
  conn

/-- The function `x_dsteg_conn_cease_transmission`. -/
def x_dsteg_conn_cease_transmission {σ : Type} (conn : x_dsteg_conn_t σ) :
    x_dsteg_conn_t σ :=
  conn

/-- The function `x_dsteg_conn_close_after_transmit`. -/
def x_dsteg_conn_close_after_transmit {σ : Type} (conn : x_dsteg_conn_t σ) :
    x_dsteg_conn_t σ :=
  conn

/-- The function `x_dsteg_conn_transmit_soon`. -/
def x_dsteg_conn_transmit_soon {σ : Type} (conn : x_dsteg_conn_t σ) (_timeout : Nat) :
    x_dsteg_conn_t σ :=
  conn

/-- What `x_dsteg_conn_recv` leaves behind when it returns: its result code,
the circuit (with the connection as its downstream) and the collaborator
calls it made, oldest first. -/
structure recv_result (σ : Type) where
  ret : recv_ret
  ckt : circuit_t σ
  calls : List call

/-- The part of `x_dsteg_conn_recv` from the `steg_receive` call on, for the
connection `s` of circuit `c` with steg instance `steg`. -/
def conn_recv_detected {σ : Type} (E : env σ) (c : circuit_t σ) (s : x_dsteg_conn_t σ)
    (steg : steg_t σ) (calls : List call) : Except fault (recv_result σ) :=
  let dest := c.up_output
  let calls := calls ++ [.steg_receive s.inbound dest]
  let r := E.steg_receive steg s dest
  let s := { s with steg := some { steg with obj := r.2.1 }, inbound := r.2.2.1 }
  let c := { c with downstream := some s, up_output := r.2.2.2 }
  if r.1 ≠ .RECV_GOOD then
    .ok ⟨r.1, c, calls⟩
  else if c.up_input.length = 0 then
    .ok ⟨.RECV_GOOD, c, calls⟩
  else
    match x_dsteg_circuit_send E c with
    | .error f => .error f
    | .ok sr =>
      .ok ⟨if sr.rv ≠ 0 then .RECV_BAD else .RECV_GOOD, sr.ckt,
        calls ++ [.circuit_send] ++ sr.calls⟩

/-- The function `x_dsteg_conn_recv`, called on the downstream connection
`s` of circuit `c`. -/
def x_dsteg_conn_recv {σ : Type} (E : env σ) (c : circuit_t σ) :
    Except fault (recv_result σ) :=
  match c.downstream with
  | none => .error .null_dereference
  | some s =>
    match s.steg with
    | none =>
      match obfs_assert (s.cfg.mode = .LSN_SIMPLE_SERVER) with
      | .error f => .error f
      | .ok _ =>
        if s.inbound.length = 0 then
          .ok ⟨.RECV_INCOMPLETE, c, []⟩
        else
          match E.steg_detect s with
          | none => .ok ⟨.RECV_BAD, c, [.steg_detect]⟩
          | some steg =>
            conn_recv_detected E c { s with steg := some steg } steg [.steg_detect]
    | some steg => conn_recv_detected E c s steg []

/-- The acceptance condition for configuration arguments in the words of
the specification: the list is non-empty and starts with one of the three
mode tokens, its length is the count required by the mode (client 4, socks
3, server 3), `args[1]` resolves as a listen address (with the default port
of the mode), `args[2]` resolves as a target address unless the mode is
socks, and the scheme argument (`args[2]` for socks, `args[3]` for client) is
a supported scheme unless the mode is server. -/
def options_accepted {σ : Type} (E : env σ) (options : List String) : Bool :=
  match options.head? with
  | none => false
  | some tok =>
    (tok = "client" || tok = "socks" || tok = "server") &&
    options.length = (if tok = "client" then 4 else 3) &&
    (E.resolve_address_port (option_at options 1) 1 1
      (some (if tok = "client" then "48988" else if tok = "socks" then "23548"
        else "11253"))).isSome &&
    (tok = "socks" || (E.resolve_address_port (option_at options 2) 1 0 none).isSome) &&
    (tok = "server" || E.steg_is_supported (option_at options (if tok = "socks" then 2 else 3)))

/-! ## Opening the upstream leg -/

/-- Modelled from the spec: `circuit_create` (connections.c is not among the
source files) creates the circuit of a configuration through the protocol's
`x_dsteg_circuit_create`, or yields `NULL` when `ok` is false and creation
fails. -/
def circuit_create {σ : Type} (ok : Bool) (cfg : x_dsteg_config_t) : Option (circuit_t σ) :=
  if ok then some (x_dsteg_circuit_create cfg) else none

/-- Modelled from the spec: `circuit_add_downstream` (connections.c is not
among the source files) binds the connection through the protocol's
`x_dsteg_circuit_add_downstream`. -/
def circuit_add_downstream {σ : Type} (ckt : circuit_t σ) (conn : x_dsteg_conn_t σ) :
    Except fault (circuit_t σ) :=
  x_dsteg_circuit_add_downstream ckt conn

/-- Modelled from the spec: `circuit_open_upstream` (not among the source
files) asks the dialing collaborator to open the upstream leg; the request
itself leaves the circuit as it is. -/
def circuit_open_upstream {σ : Type} (ckt : circuit_t σ) : circuit_t σ :=
  ckt

/-- What `x_dsteg_conn_maybe_open_upstream` leaves behind when it returns:
its return value, the connection it was called on, the circuit it created
(`none` when there is none) and the collaborator calls it made. -/
structure open_upstream_result (σ : Type) where
  rv : Int
  conn : x_dsteg_conn_t σ
  ckt : Option (circuit_t σ)
  calls : List call

/-- The function `x_dsteg_conn_maybe_open_upstream`; `create_ok` tells
whether `circuit_create` is able to create a circuit. -/
def x_dsteg_conn_maybe_open_upstream {σ : Type} (create_ok : Bool) (conn : x_dsteg_conn_t σ) :
    Except fault (open_upstream_result σ) :=
  match circuit_create create_ok conn.cfg with
  | none => .ok ⟨-1, conn, none, [.circuit_create]⟩
  | some ckt =>
    match circuit_add_downstream ckt conn with
    | .error f => .error f
    | .ok ckt =>
      .ok ⟨0, conn, some (circuit_open_upstream ckt),
        [.circuit_create, .circuit_add_downstream, .circuit_open_upstream]⟩

/-! ## The plugin interface of steg.h -/

/-- The widths, in bits, of the C types `size_t` and `unsigned int` in the
build; steg.h fixes the types of the limit fields of `steg_module`, the
build fixes their widths. -/
structure c_widths where
  size_t_bits : Nat
  unsigned_int_bits : Nat
  deriving DecidableEq, Repr

/-- The conversion of an integer value to an unsigned C type of the given
width, as an initialiser of a field of that type undergoes it: the value
modulo `2 ^ bits`. -/
def to_unsigned (bits : Nat) (x : Int) : Nat :=
  (x % 2 ^ bits).toNat

/-- The `steg_module` struct, fields in the order of their declaration: the
name, the four limits, the detector and the constructor.  A limit field
holds a value of its C type (`size_t` for the two rates, `unsigned int` for
the two correlation limits), written as the natural number it denotes; an
initialiser is converted to that type where the object is initialised.
`detect` reports a bool about a connection; `new_` yields the contents of
the instance it allocates. -/
structure steg_module (σ : Type) where
  name : String
  max_c2s_rate : Nat
  max_s2c_rate : Nat
  max_corr_conns_per_ip : Nat
  max_corr_ips : Nat
  detect : x_dsteg_conn_t σ → Bool
  new_ : Bool → σ

/-- The contents of an object of a subclass of the `steg_t` struct of
steg.h: the bit `is_clientside`, what the virtual method `name()` of the
object reports, and the members the subclass adds. -/
structure steg_fields (τ : Type) where
  is_clientside : Bool
  name : String
  members : τ

/-- A subclass `mod` of `steg_t` as its author declares it with
`STEG_DECLARE_METHODS`, before `STEG_DEFINE_MODULE` is applied to it: the
identifier `mod`, the static method `detect`, and the members that the
constructor `mod()` sets up. -/
structure steg_class (τ : Type) where
  ident : String
  detect : x_dsteg_conn_t (steg_fields τ) → Bool
  members : τ

/-- The expression `new mod` with the canned method `mod::name()` of
`STEG_DEFINE_MODULE` in place: `name()` reports `#mod`; the constructor
`steg_t() {}` does not set `is_clientside`, and `false` stands for the value
the bit happens to hold. -/
def new_mod {τ : Type} (mod : steg_class τ) : steg_fields τ :=
  ⟨false, mod.ident, mod.members⟩

/-- The dispatcher `mod##_detect` that `STEG_DEFINE_MODULE` generates. -/
def mod_detect {τ : Type} (mod : steg_class τ) (conn : x_dsteg_conn_t (steg_fields τ)) :
    Bool :=
  mod.detect conn

/-- The dispatcher `mod##_new` that `STEG_DEFINE_MODULE` generates. -/
def mod_new {τ : Type} (mod : steg_class τ) (is_clientside : Bool) : steg_fields τ :=
  let s := new_mod mod
  { s with is_clientside := is_clientside }

/-- The module object `s_mod_##mod` that `STEG_DEFINE_MODULE(mod, csm, scm,
mcci, mci)` generates in a build with widths `W`, initialised field by field
in the order of the initialiser list: the integer arguments `csm` and `scm`
are converted to `size_t`, `mcci` and `mci` to `unsigned int`. -/
def STEG_DEFINE_MODULE {τ : Type} (W : c_widths) (mod : steg_class τ)
    (csm scm mcci mci : Int) : steg_module (steg_fields τ) :=
  ⟨mod.ident, to_unsigned W.size_t_bits csm, to_unsigned W.size_t_bits scm,
    to_unsigned W.unsigned_int_bits mcci, to_unsigned W.unsigned_int_bits mci,
    mod_detect mod, mod_new mod⟩

/-- Modelled from the spec: `steg_detect` (steg.c is not among the source
files) scans the registry `supported_stegs` in registration order; each
descriptor's detector inspects the connection without consuming or changing
its inbound buffer; the first descriptor that matches wins and its
constructor is invoked with `is_clientside = false`; no match yields `NULL`.
`addr` is the address at which the new instance is allocated. -/
def steg_detect {σ : Type} (supported_stegs : List (steg_module σ)) (addr : Nat)
    (conn : x_dsteg_conn_t σ) : Option (steg_t σ) :=
  match supported_stegs with
  | [] => none
  | m :: rest =>
    if m.detect conn then some ⟨addr, m.new_ false⟩ else steg_detect rest addr conn

/-- The environment `E` with detection done by `steg_detect` over the
registry `supported_stegs`. -/
def with_registry {σ : Type} (E : env σ) (supported_stegs : List (steg_module σ))
    (addr : Nat) : env σ :=
  { E with steg_detect := steg_detect supported_stegs addr }

/-! ## Counting calls in a log -/

/-- The number of `steg_receive` calls in a call log. -/
def receive_calls : List call → Nat
  | [] => 0
  | .steg_receive _ _ :: rest => receive_calls rest + 1
  | _ :: rest => receive_calls rest

/-- The number of `x_dsteg_circuit_send` calls in a call log. -/
def circuit_send_calls : List call → Nat
  | [] => 0
  | .circuit_send :: rest => circuit_send_calls rest + 1
  | _ :: rest => circuit_send_calls rest

/-! ## Sequences of calls -/

/-- The events in the life of a connection and its circuit after both
exist: the entry points of `x_dsteg.c` that act on them, and the arrival of
bytes from the network between two calls. -/
inductive conn_op
  | recv
  | send
  | handshake
  | send_eof
  | recv_eof
  | expect_close
  | cease_transmission
  | close_after_transmit
  | transmit_soon (timeout : Nat)
  | bytes_arrive (inbound up_input : evbuffer)
  deriving DecidableEq, Repr

/-- Apply a connection-level function to the downstream connection of a
circuit. -/
def on_downstream {σ : Type} (f : x_dsteg_conn_t σ → x_dsteg_conn_t σ) (c : circuit_t σ) :
    circuit_t σ :=
  { c with downstream := c.downstream.map f }

/-- Modelled from the spec: the network layer (not among the source files)
appends the bytes read from the downstream socket to the inbound buffer of
the connection and the bytes read from upstream to the source buffer of the
circuit. -/
def bytes_arrive {σ : Type} (inbound up_input : evbuffer) (c : circuit_t σ) : circuit_t σ :=
  { c with
    downstream := c.downstream.map (fun s => { s with inbound := s.inbound ++ inbound }),
    up_input := c.up_input ++ up_input }

/-- One call, made in environment `E`, on circuit `c` and its downstream
connection: the circuit afterwards and the collaborator calls made. -/
def step {σ : Type} (E : env σ) (op : conn_op) (c : circuit_t σ) :
    Except fault (circuit_t σ × List call) :=
  match op with
  | .recv =>
    match x_dsteg_conn_recv E c with
    | .error f => .error f
    | .ok r => .ok (r.ckt, r.calls)
  | .send =>
    match x_dsteg_circuit_send E c with
    | .error f => .error f
    | .ok r => .ok (r.ckt, .circuit_send :: r.calls)
  | .handshake => .ok (on_downstream (fun s => (x_dsteg_conn_handshake s).2) c, [])
  | .send_eof => .ok (on_downstream (fun s => (x_dsteg_conn_send_eof s).2) c, [])
  | .recv_eof => .ok (on_downstream (fun s => (x_dsteg_conn_recv_eof s).2) c, [])
  | .expect_close => .ok (on_downstream x_dsteg_conn_expect_close c, [])
  | .cease_transmission => .ok (on_downstream x_dsteg_conn_cease_transmission c, [])
  | .close_after_transmit => .ok (on_downstream x_dsteg_conn_close_after_transmit c, [])
  | .transmit_soon timeout =>
    .ok (on_downstream (fun s => x_dsteg_conn_transmit_soon s timeout) c, [])
  | .bytes_arrive inbound up_input => .ok (bytes_arrive inbound up_input c, [])

/-- A sequence of calls, each made in its own environment, oldest first;
the run ends at the first call that does not return. -/
def run {σ : Type} : List (env σ × conn_op) → circuit_t σ →
    Except fault (circuit_t σ × List call)
  | [], c => .ok (c, [])
  | (E, op) :: rest, c =>
    match step E op c with
    | .error f => .error f
    | .ok (c1, calls1) =>
      match run rest c1 with
      | .error f => .error f
      | .ok (c2, calls2) => .ok (c2, calls1 ++ calls2)

/-- The steg instance of the downstream connection is `some` instance with
pointer value `a`. -/
def detected_as {σ : Type} (a : Nat) (c : circuit_t σ) : Prop :=
  ∃ s g, c.downstream = some s ∧ s.steg = some g ∧ g.addr = a

/-! ## A concrete environment -/

/-- A small environment used to evaluate the definitions at concrete inputs:
two addresses resolve, the one scheme is `x_http`, an instance stores in
`obj` the room it reports, `transmit` appends the chunk to the outbound
buffer and leaves room for five more bytes, `receive` moves the whole
inbound buffer to the destination, and detection matches a first byte
`71`. -/
def sample_env : env Nat where
  resolve_address_port := fun address _ _ _ =>
    if address = "127.0.0.1:9000" then some ⟨"127.0.0.1", "9000"⟩
    else if address = "127.0.0.1:9001" then some ⟨"127.0.0.1", "9001"⟩
    else none
  steg_is_supported := fun name => decide (name = "x_http")
  steg_new := fun name => if name = some "x_http" then some ⟨1, 0⟩ else none
  steg_detect := fun conn => if conn.inbound.head? = some 71 then some ⟨2, 0⟩ else none
  steg_transmit_room := fun steg _ => steg.obj
  steg_transmit := fun _ chunk conn => (0, 5, conn.outbound ++ chunk)
  steg_receive := fun steg conn dest => (.RECV_GOOD, steg.obj, [], dest ++ conn.inbound)
  evbuffer_new_ok := true
  evbuffer_remove_ok := true

/-- A server-mode configuration. -/
def sample_server_config : x_dsteg_config_t :=
  ⟨.LSN_SIMPLE_SERVER, some ⟨"127.0.0.1", "9000"⟩, some ⟨"127.0.0.1", "9001"⟩, none⟩

/-- A connection of `sample_server_config` with the given steg instance and
inbound bytes. -/
def sample_conn (steg : Option (steg_t Nat)) (inbound : evbuffer) : x_dsteg_conn_t Nat :=
  ⟨sample_server_config, steg, inbound, []⟩

/-- A circuit of `sample_server_config` around the given downstream, with
the given bytes waiting in the upstream source buffer and the given timer
state. -/
def sample_circuit (downstream : Option (x_dsteg_conn_t Nat)) (up_input : evbuffer)
    (flush_timer : Option Nat) : circuit_t Nat :=
  ⟨sample_server_config, downstream, up_input, [], flush_timer⟩

/-- A registry with the one scheme of `sample_env`: its detector matches a
first inbound byte `71`. -/
def sample_registry : List (steg_module Nat) :=
  [⟨"x_http", 1000, 2000, 1, 1, fun conn => conn.inbound.head? = some 71, fun _ => 0⟩]

/-- A build with a 64-bit `size_t` and a 32-bit `unsigned int`. -/
def sample_widths : c_widths :=
  ⟨64, 32⟩

/-- A steg class named `x_http` whose static `detect` matches a first inbound
byte `71` and which has no members of its own. -/
def sample_class : steg_class Unit :=
  ⟨"x_http", fun conn => conn.inbound.head? = some 71, ()⟩

/-! ## Theorems -/

section send_lemmas

variable {σ : Type}

theorem transmitted_append (xs ys : List call) :
    transmitted (xs ++ ys) = transmitted xs ++ transmitted ys := by
  induction xs with
  | nil => rfl
  | cons x xs ih => cases x <;> simp [transmitted, ih]

/-- A send with a steg instance, non-zero room and no failure of libevent
or of the module: the first `room` bytes go to `steg_transmit` as one
chunk, the rest stays, and the timer is armed exactly when bytes stay. -/
theorem circuit_send_room_pos (E : env σ) (c : circuit_t σ) (d : x_dsteg_conn_t σ)
    (g : steg_t σ) (hd : c.downstream = some d) (hg : d.steg = some g)
    (hroom : E.steg_transmit_room g d ≠ 0)
    (hnew : E.evbuffer_new_ok = true) (hrm : E.evbuffer_remove_ok = true)
    (htx : 0 ≤ (E.steg_transmit g (c.up_input.take (E.steg_transmit_room g d)) d).1) :
    x_dsteg_circuit_send E c = .ok
      ⟨0,
       { c with
          downstream := some { d with
            steg := some { g with obj :=
              (E.steg_transmit g (c.up_input.take (E.steg_transmit_room g d)) d).2.1 },
            outbound :=
              (E.steg_transmit g (c.up_input.take (E.steg_transmit_room g d)) d).2.2 },
          up_input := c.up_input.drop (E.steg_transmit_room g d),
          flush_timer :=
            if (c.up_input.drop (E.steg_transmit_room g d)).length > 0 then some 200
            else none },
       [.steg_transmit_room,
        .steg_transmit (c.up_input.take (E.steg_transmit_room g d))]⟩ := by
  have hlt : ¬ (E.steg_transmit g (c.up_input.take (E.steg_transmit_room g d)) d).1 < 0 :=
    not_lt.mpr htx
  simp only [x_dsteg_circuit_send, hd, hg, hnew, hrm, evbuffer_remove_buffer,
    circuit_disarm_flush_timer, circuit_send_finish, circuit_arm_flush_timer]
  simp only [ne_eq, hroom, not_false_eq_true, if_true, List.nil_append, ge_iff_le,
    Nat.cast_nonneg, hlt, if_false]
  split <;> rfl

/-- A send with a steg instance that reports no room: nothing is handed
over, and the timer is armed exactly when the source holds bytes. -/
theorem circuit_send_room_zero (E : env σ) (c : circuit_t σ) (d : x_dsteg_conn_t σ)
    (g : steg_t σ) (hd : c.downstream = some d) (hg : d.steg = some g)
    (hroom : E.steg_transmit_room g d = 0) :
    x_dsteg_circuit_send E c = .ok
      ⟨0, { c with flush_timer := if c.up_input.length > 0 then some 200 else none },
       [.steg_transmit_room]⟩ := by
  simp only [x_dsteg_circuit_send, hd, hg, hroom, circuit_disarm_flush_timer,
    circuit_send_finish, circuit_arm_flush_timer]
  simp only [ne_eq, not_true_eq_false, if_false, lt_self_iff_false]
  split <;> rfl

end send_lemmas

section send_theorems

variable {σ : Type}

/-- C1: with a steg instance present and neither libevent nor the module's
transmit failing, a send whose capacity `cap` is below the number `n` of
pending source bytes returns 0, removes exactly the first `cap` bytes and
leaves the flush timer armed; a following send on the resulting circuit
with capacity at least `n - cap` returns 0, leaves the source empty and the
timer disarmed, and the chunks handed to `steg_transmit` by the two calls
(the first call hands one over only when `cap` is not zero), concatenated in
order, are the original source bytes. -/
theorem circuit_send_in_two_calls (E1 E2 : env σ) (c : circuit_t σ)
    (d : x_dsteg_conn_t σ) (g : steg_t σ)
    (hd : c.downstream = some d) (hg : d.steg = some g)
    (hnew1 : E1.evbuffer_new_ok = true) (hrm1 : E1.evbuffer_remove_ok = true)
    (htx1 : ∀ st ch cn, 0 ≤ (E1.steg_transmit st ch cn).1)
    (hnew2 : E2.evbuffer_new_ok = true) (hrm2 : E2.evbuffer_remove_ok = true)
    (htx2 : ∀ st ch cn, 0 ≤ (E2.steg_transmit st ch cn).1)
    (hcap : E1.steg_transmit_room g d < c.up_input.length) :
    ∃ r1 d1 g1, x_dsteg_circuit_send E1 c = .ok r1 ∧ r1.rv = 0 ∧
      r1.ckt.up_input = c.up_input.drop (E1.steg_transmit_room g d) ∧
      r1.ckt.up_input.length + E1.steg_transmit_room g d = c.up_input.length ∧
      r1.ckt.flush_timer = some 200 ∧
      transmitted r1.calls =
        (if E1.steg_transmit_room g d = 0 then []
         else [c.up_input.take (E1.steg_transmit_room g d)]) ∧
      r1.ckt.downstream = some d1 ∧ d1.steg = some g1 ∧ g1.addr = g.addr ∧
      (c.up_input.length - E1.steg_transmit_room g d ≤ E2.steg_transmit_room g1 d1 →
        ∃ r2, x_dsteg_circuit_send E2 r1.ckt = .ok r2 ∧ r2.rv = 0 ∧
          r2.ckt.up_input = [] ∧ r2.ckt.flush_timer = none ∧
          transmitted r2.calls = [c.up_input.drop (E1.steg_transmit_room g d)] ∧
          (transmitted (r1.calls ++ r2.calls)).flatten = c.up_input) := by
  have hrest : 0 < (c.up_input.drop (E1.steg_transmit_room g d)).length := by
    rw [List.length_drop]; omega
  -- the first call
  have first : ∃ r1 d1 g1, x_dsteg_circuit_send E1 c = .ok r1 ∧ r1.rv = 0 ∧
      r1.ckt.up_input = c.up_input.drop (E1.steg_transmit_room g d) ∧
      r1.ckt.flush_timer = some 200 ∧
      transmitted r1.calls =
        (if E1.steg_transmit_room g d = 0 then []
         else [c.up_input.take (E1.steg_transmit_room g d)]) ∧
      r1.ckt.downstream = some d1 ∧ d1.steg = some g1 ∧ g1.addr = g.addr := by
    by_cases h0 : E1.steg_transmit_room g d = 0
    · refine ⟨_, d, g, circuit_send_room_zero E1 c d g hd hg h0, rfl, ?_, ?_, ?_, hd, hg, rfl⟩
      · show c.up_input = _
        rw [h0]; rfl
      · have hpos : c.up_input.length > 0 := by omega
        show (if c.up_input.length > 0 then some 200 else none) = some 200
        rw [if_pos hpos]
      · rw [if_pos h0]; rfl
    · refine ⟨_, _, _, circuit_send_room_pos E1 c d g hd hg h0 hnew1 hrm1 (htx1 _ _ _), rfl,
        rfl, ?_, ?_, rfl, rfl, rfl⟩
      · show (if (c.up_input.drop (E1.steg_transmit_room g d)).length > 0 then some 200
          else none) = some 200
        rw [if_pos hrest]
      · rw [if_neg h0]; rfl
  obtain ⟨r1, d1, g1, e1, hrv1, hup1, hft1, htr1, hd1, hg1, ha1⟩ := first
  refine ⟨r1, d1, g1, e1, hrv1, hup1, ?_, hft1, htr1, hd1, hg1, ha1, ?_⟩
  · rw [hup1, List.length_drop]; omega
  -- the second call, on the circuit left by the first
  intro hc2
  have hlen : r1.ckt.up_input.length ≤ E2.steg_transmit_room g1 d1 := by
    rw [hup1, List.length_drop]; exact hc2
  have hpos : E2.steg_transmit_room g1 d1 ≠ 0 := by
    rw [hup1] at hlen; omega
  have hnil : r1.ckt.up_input.drop (E2.steg_transmit_room g1 d1) = [] :=
    List.drop_eq_nil_of_le hlen
  have htr2 : transmitted [call.steg_transmit_room,
      call.steg_transmit (r1.ckt.up_input.take (E2.steg_transmit_room g1 d1))] =
      [c.up_input.drop (E1.steg_transmit_room g d)] := by
    rw [List.take_of_length_le hlen, hup1]; rfl
  refine ⟨_, circuit_send_room_pos E2 r1.ckt d1 g1 hd1 hg1 hpos hnew2 hrm2 (htx2 _ _ _), rfl,
    hnil, ?_, htr2, ?_⟩
  · show (if (r1.ckt.up_input.drop (E2.steg_transmit_room g1 d1)).length > 0 then some 200
      else none) = none
    rw [hnil]; rfl
  · rw [transmitted_append, htr1, htr2]
    by_cases h0 : E1.steg_transmit_room g d = 0
    · rw [if_pos h0, h0]; simp
    · rw [if_neg h0]; simp

/-- C1 at a concrete input: three pending bytes, capacity 1 and then 5. -/
theorem circuit_send_in_two_calls_witness :
    ∃ r1 d1 g1,
      x_dsteg_circuit_send sample_env
        (sample_circuit (some (sample_conn (some ⟨7, 1⟩) [])) [10, 20, 30] none) = .ok r1 ∧
      r1.rv = 0 ∧ r1.ckt.up_input = [20, 30] ∧ r1.ckt.up_input.length + 1 = 3 ∧
      r1.ckt.flush_timer = some 200 ∧ transmitted r1.calls = [[10]] ∧
      r1.ckt.downstream = some d1 ∧ d1.steg = some g1 ∧ g1.addr = 7 ∧
      (3 - 1 ≤ sample_env.steg_transmit_room g1 d1 →
        ∃ r2, x_dsteg_circuit_send sample_env r1.ckt = .ok r2 ∧ r2.rv = 0 ∧
          r2.ckt.up_input = [] ∧ r2.ckt.flush_timer = none ∧
          transmitted r2.calls = [[20, 30]] ∧
          (transmitted (r1.calls ++ r2.calls)).flatten = [10, 20, 30]) :=
  circuit_send_in_two_calls sample_env sample_env
    (sample_circuit (some (sample_conn (some ⟨7, 1⟩) [])) [10, 20, 30] none)
    (sample_conn (some ⟨7, 1⟩) []) ⟨7, 1⟩ rfl rfl rfl rfl (fun _ _ _ => le_refl 0)
    rfl rfl (fun _ _ _ => le_refl 0) (by decide)

/-- C2: with a steg instance that reports transmit capacity 0, the send
returns 0, the upstream source buffer and the downstream connection are as
before, and no chunk is handed to `steg_transmit`. -/
theorem circuit_send_no_room (E : env σ) (c : circuit_t σ) (d : x_dsteg_conn_t σ)
    (g : steg_t σ) (hd : c.downstream = some d) (hg : d.steg = some g)
    (hroom : E.steg_transmit_room g d = 0) :
    ∃ r, x_dsteg_circuit_send E c = .ok r ∧ r.rv = 0 ∧ r.ckt.up_input = c.up_input ∧
      r.ckt.downstream = some d ∧ r.calls = [.steg_transmit_room] ∧
      (∀ chunk, call.steg_transmit chunk ∉ r.calls) :=
  ⟨_, circuit_send_room_zero E c d g hd hg hroom, rfl, rfl, hd, rfl, by
    intro chunk hmem
    simp at hmem⟩

/-- C2 at a concrete input: three pending bytes and an instance without
room. -/
theorem circuit_send_no_room_witness :
    ∃ r, x_dsteg_circuit_send sample_env
        (sample_circuit (some (sample_conn (some ⟨7, 0⟩) [])) [10, 20, 30] none) = .ok r ∧
      r.rv = 0 ∧ r.ckt.up_input = [10, 20, 30] ∧
      r.ckt.downstream = some (sample_conn (some ⟨7, 0⟩) []) ∧
      r.calls = [.steg_transmit_room] ∧
      (∀ chunk, call.steg_transmit chunk ∉ r.calls) :=
  circuit_send_no_room sample_env
    (sample_circuit (some (sample_conn (some ⟨7, 0⟩) [])) [10, 20, 30] none)
    (sample_conn (some ⟨7, 0⟩) []) ⟨7, 0⟩ rfl rfl rfl

/-- C3: when the downstream connection has no steg instance, the send
returns 0 without any collaborator call (no capacity query, no transmit),
the upstream source buffer and the downstream connection (hence its
outbound buffer) are as before, and the flush timer is disarmed, whatever
the timer state and the source contents were. -/
theorem circuit_send_undetected (E : env σ) (c : circuit_t σ) (d : x_dsteg_conn_t σ)
    (hd : c.downstream = some d) (hg : d.steg = none) :
    ∃ r, x_dsteg_circuit_send E c = .ok r ∧ r.rv = 0 ∧ r.calls = [] ∧
      r.ckt.up_input = c.up_input ∧ r.ckt.downstream = some d ∧
      r.ckt.flush_timer = none := by
  refine ⟨⟨0, { c with flush_timer := none }, []⟩, ?_, rfl, rfl, rfl, hd, rfl⟩
  simp only [x_dsteg_circuit_send, hd, hg, circuit_disarm_flush_timer]

/-- C3 at a concrete input: an armed timer and three pending bytes. -/
theorem circuit_send_undetected_witness :
    ∃ r, x_dsteg_circuit_send sample_env
        (sample_circuit (some (sample_conn none [71])) [10, 20, 30] (some 200)) = .ok r ∧
      r.rv = 0 ∧ r.calls = [] ∧ r.ckt.up_input = [10, 20, 30] ∧
      r.ckt.downstream = some (sample_conn none [71]) ∧ r.ckt.flush_timer = none :=
  circuit_send_undetected sample_env
    (sample_circuit (some (sample_conn none [71])) [10, 20, 30] (some 200))
    (sample_conn none [71]) rfl rfl

/-- C5: on a circuit without a downstream, `x_dsteg_circuit_add_downstream`
returns with the downstream set to the given connection and every other
field as before; on a circuit that has a downstream it takes the assertion
failure path, for every pair of connections, and yields no circuit. -/
theorem circuit_add_downstream_once (cfg : x_dsteg_config_t) (up_input up_output : evbuffer)
    (flush_timer : Option Nat) (old conn : x_dsteg_conn_t σ) :
    x_dsteg_circuit_add_downstream ⟨cfg, none, up_input, up_output, flush_timer⟩ conn =
      .ok ⟨cfg, some conn, up_input, up_output, flush_timer⟩ ∧
    x_dsteg_circuit_add_downstream ⟨cfg, some old, up_input, up_output, flush_timer⟩ conn =
      .error .assertion_failure :=
  ⟨rfl, rfl⟩

/-- A send on a detected connection returns, keeps the instance and makes no
detection call. -/
theorem circuit_send_keeps_steg (E : env σ) (c : circuit_t σ) (a : Nat)
    (h : detected_as a c) :
    ∃ r, x_dsteg_circuit_send E c = .ok r ∧ detected_as a r.ckt ∧
      call.steg_detect ∉ r.calls := by
  obtain ⟨s, g, hs, hg, ha⟩ := h
  simp only [x_dsteg_circuit_send, hs, hg, circuit_send_finish, circuit_disarm_flush_timer,
    circuit_arm_flush_timer, detected_as]
  split_ifs <;>
    first
    | exact ⟨_, rfl, ⟨_, _, rfl, rfl, ha⟩, by simp⟩
    | exact ⟨_, rfl, ⟨_, _, rfl, hg, ha⟩, by simp⟩

/-- The receive path of a detected connection returns, keeps the instance
and makes no detection call beyond those already logged. -/
theorem conn_recv_detected_keeps_steg (E : env σ) (c : circuit_t σ) (s : x_dsteg_conn_t σ)
    (g : steg_t σ) (calls : List call) (hcalls : call.steg_detect ∉ calls) :
    ∃ r, conn_recv_detected E c s g calls = .ok r ∧ detected_as g.addr r.ckt ∧
      call.steg_detect ∉ r.calls := by
  unfold conn_recv_detected
  simp only
  split_ifs with h1 h2
  · exact ⟨_, rfl, ⟨_, _, rfl, rfl, rfl⟩, by simpa using hcalls⟩
  · exact ⟨_, rfl, ⟨_, _, rfl, rfl, rfl⟩, by simpa using hcalls⟩
  · obtain ⟨r, hr, hdet, hno⟩ := circuit_send_keeps_steg E
      { c with
        downstream := some { s with
          steg := some { g with obj := (E.steg_receive g s c.up_output).2.1 },
          inbound := (E.steg_receive g s c.up_output).2.2.1 },
        up_output := (E.steg_receive g s c.up_output).2.2.2 } g.addr ⟨_, _, rfl, rfl, rfl⟩
    rw [hr]
    exact ⟨_, rfl, hdet, by simpa using ⟨hcalls, hno⟩⟩

/-- One call on a detected connection returns, keeps the instance and makes
no detection call. -/
theorem step_keeps_steg (E : env σ) (op : conn_op) (c : circuit_t σ) (a : Nat)
    (h : detected_as a c) :
    ∃ c1 calls, step E op c = .ok (c1, calls) ∧ detected_as a c1 ∧
      call.steg_detect ∉ calls := by
  have hook : ∀ f : x_dsteg_conn_t σ → x_dsteg_conn_t σ, (∀ s, f s = s) →
      detected_as a (on_downstream f c) := by
    intro f hf
    obtain ⟨s, g, hs, hg, ha⟩ := h
    exact ⟨s, g, by simp [on_downstream, hs, hf], hg, ha⟩
  cases op with
  | recv =>
    obtain ⟨s, g, hs, hg, ha⟩ := h
    obtain ⟨r, hr, hdet, hno⟩ := conn_recv_detected_keeps_steg E c s g [] (by simp)
    refine ⟨r.ckt, r.calls, ?_, ha ▸ hdet, hno⟩
    simp only [step, x_dsteg_conn_recv, hs, hg, hr]
  | send =>
    obtain ⟨r, hr, hdet, hno⟩ := circuit_send_keeps_steg E c a h
    refine ⟨r.ckt, .circuit_send :: r.calls, ?_, hdet, by simpa using hno⟩
    simp only [step, hr]
  | handshake => exact ⟨_, _, rfl, hook _ (fun _ => rfl), by simp⟩
  | send_eof => exact ⟨_, _, rfl, hook _ (fun _ => rfl), by simp⟩
  | recv_eof => exact ⟨_, _, rfl, hook _ (fun _ => rfl), by simp⟩
  | expect_close => exact ⟨_, _, rfl, hook _ (fun _ => rfl), by simp⟩
  | cease_transmission => exact ⟨_, _, rfl, hook _ (fun _ => rfl), by simp⟩
  | close_after_transmit => exact ⟨_, _, rfl, hook _ (fun _ => rfl), by simp⟩
  | transmit_soon t => exact ⟨_, _, rfl, hook _ (fun _ => rfl), by simp⟩
  | bytes_arrive i u =>
    obtain ⟨s, g, hs, hg, ha⟩ := h
    exact ⟨_, _, rfl, ⟨{ s with inbound := s.inbound ++ i }, g, by simp [bytes_arrive, hs],
      hg, ha⟩, by simp⟩

/-- C4: once the downstream connection of a circuit has a steg instance,
every sequence of `x_dsteg_conn_recv`, `x_dsteg_circuit_send`, handshake,
send_eof, recv_eof and close-hook calls, in whatever environments and with
whatever result codes, runs to its end and leaves the connection with a steg
instance that is the same one (same pointer value), and no call of the
sequence runs `steg_detect`. -/
theorem detected_is_sticky (ops : List (env σ × conn_op)) (c : circuit_t σ)
    (s : x_dsteg_conn_t σ) (g : steg_t σ)
    (hs : c.downstream = some s) (hg : s.steg = some g) :
    ∃ c1 s1 g1 calls, run ops c = .ok (c1, calls) ∧ c1.downstream = some s1 ∧
      s1.steg = some g1 ∧ g1.addr = g.addr ∧ call.steg_detect ∉ calls := by
  have main : ∀ (ops : List (env σ × conn_op)) (c : circuit_t σ), detected_as g.addr c →
      ∃ c1 calls, run ops c = .ok (c1, calls) ∧ detected_as g.addr c1 ∧
        call.steg_detect ∉ calls := by
    intro ops
    induction ops with
    | nil => exact fun c h => ⟨c, [], rfl, h, by simp⟩
    | cons eo rest ih =>
      intro c h
      obtain ⟨E, op⟩ := eo
      obtain ⟨c1, l1, e1, h1, n1⟩ := step_keeps_steg E op c g.addr h
      obtain ⟨c2, l2, e2, h2, n2⟩ := ih c1 h1
      exact ⟨c2, l1 ++ l2, by simp only [run, e1, e2], h2, by simpa using ⟨n1, n2⟩⟩
  obtain ⟨c1, calls, e, ⟨s1, g1, hs1, hg1, ha1⟩, hno⟩ := main ops c ⟨s, g, hs, hg, rfl⟩
  exact ⟨c1, s1, g1, calls, e, hs1, hg1, ha1, hno⟩

/-- C4 at a concrete input: a receive, a send and the hooks on a connection
with the instance at pointer value 7. -/
theorem detected_is_sticky_witness :
    ∃ c1 s1 g1 calls,
      run [(sample_env, .recv), (sample_env, .send), (sample_env, .handshake),
          (sample_env, .send_eof), (sample_env, .recv_eof), (sample_env, .transmit_soon 5),
          (sample_env, .recv)]
        (sample_circuit (some (sample_conn (some ⟨7, 1⟩) [71, 72])) [10, 20, 30] none) =
        .ok (c1, calls) ∧
      c1.downstream = some s1 ∧ s1.steg = some g1 ∧ g1.addr = 7 ∧
      call.steg_detect ∉ calls :=
  detected_is_sticky _ _ (sample_conn (some ⟨7, 1⟩) [71, 72]) ⟨7, 1⟩ rfl rfl

/-- C10: on a server-mode connection without a steg instance and with an
empty inbound buffer, `x_dsteg_conn_recv` returns `RECV_INCOMPLETE`, makes no
collaborator call (no detection, no receive, no send) and leaves the circuit
and the connection, with all buffers and the flush timer, as they were. -/
theorem conn_recv_undetected_empty (E : env σ) (c : circuit_t σ) (s : x_dsteg_conn_t σ)
    (hs : c.downstream = some s) (hg : s.steg = none)
    (hmode : s.cfg.mode = .LSN_SIMPLE_SERVER) (hin : s.inbound = []) :
    x_dsteg_conn_recv E c = .ok ⟨.RECV_INCOMPLETE, c, []⟩ := by
  simp [x_dsteg_conn_recv, hs, hg, hmode, hin, obfs_assert]

/-- C10 at a concrete input: pending upstream bytes and an armed timer. -/
theorem conn_recv_undetected_empty_witness :
    x_dsteg_conn_recv sample_env
        (sample_circuit (some (sample_conn none [])) [10, 20, 30] (some 200)) =
      .ok ⟨.RECV_INCOMPLETE,
        sample_circuit (some (sample_conn none [])) [10, 20, 30] (some 200), []⟩ :=
  conn_recv_undetected_empty sample_env _ (sample_conn none []) rfl rfl rfl rfl

end send_theorems

section config_theorems

variable {σ : Type}

/-- The parse of a well-formed client argument list. -/
theorem parse_client_ok (E : env σ) (L T S : String) (c0 : x_dsteg_config_t)
    (la ta : evutil_addrinfo)
    (hL : E.resolve_address_port L 1 1 (some "48988") = some la)
    (hT : E.resolve_address_port T 1 0 none = some ta)
    (hS : E.steg_is_supported S = true) :
    parse_and_set_options E ["client", L, T, S] c0 =
      ⟨0, ⟨.LSN_SIMPLE_CLIENT, some la, some ta, some S⟩,
        [.resolve_address_port L 1 1 (some "48988"), .resolve_address_port T 1 0 none,
         .steg_is_supported S]⟩ := by
  simp [parse_and_set_options, mode_of_token, option_at, parse_target, parse_stegname, hL, hT,
    hS]

/-- The parse of a well-formed socks argument list. -/
theorem parse_socks_ok (E : env σ) (L S : String) (c0 : x_dsteg_config_t)
    (la : evutil_addrinfo)
    (hL : E.resolve_address_port L 1 1 (some "23548") = some la)
    (hS : E.steg_is_supported S = true) :
    parse_and_set_options E ["socks", L, S] c0 =
      ⟨0, ⟨.LSN_SOCKS_CLIENT, some la, c0.target_addr, some S⟩,
        [.resolve_address_port L 1 1 (some "23548"), .steg_is_supported S]⟩ := by
  simp [parse_and_set_options, mode_of_token, option_at, parse_target, parse_stegname, hL, hS]

/-- The parse of a well-formed server argument list. -/
theorem parse_server_ok (E : env σ) (L T : String) (c0 : x_dsteg_config_t)
    (la ta : evutil_addrinfo)
    (hL : E.resolve_address_port L 1 1 (some "11253") = some la)
    (hT : E.resolve_address_port T 1 0 none = some ta) :
    parse_and_set_options E ["server", L, T] c0 =
      ⟨0, ⟨.LSN_SIMPLE_SERVER, some la, some ta, c0.stegname⟩,
        [.resolve_address_port L 1 1 (some "11253"), .resolve_address_port T 1 0 none]⟩ := by
  simp [parse_and_set_options, mode_of_token, option_at, parse_target, parse_stegname, hL, hT]

/-- Every successful parse is one of the three well-formed shapes. -/
theorem parse_ok_cases (E : env σ) (options : List String) (c0 : x_dsteg_config_t)
    (h : (parse_and_set_options E options c0).rv = 0) :
    (∃ L T S la ta, options = ["client", L, T, S] ∧
      E.resolve_address_port L 1 1 (some "48988") = some la ∧
      E.resolve_address_port T 1 0 none = some ta ∧ E.steg_is_supported S = true) ∨
    (∃ L S la, options = ["socks", L, S] ∧
      E.resolve_address_port L 1 1 (some "23548") = some la ∧
      E.steg_is_supported S = true) ∨
    (∃ L T la ta, options = ["server", L, T] ∧
      E.resolve_address_port L 1 1 (some "11253") = some la ∧
      E.resolve_address_port T 1 0 none = some ta) := by
  rcases options with _ | ⟨tok, rest⟩
  · simp [parse_and_set_options] at h
  by_cases hc : tok = "client"
  · subst hc
    rcases rest with _ | ⟨L, _ | ⟨T, _ | ⟨S, _ | ⟨x, more⟩⟩⟩⟩
    · simp [parse_and_set_options, mode_of_token, option_at] at h
    · simp [parse_and_set_options, mode_of_token, option_at] at h
    · simp [parse_and_set_options, mode_of_token, option_at] at h
    · left
      cases hL : E.resolve_address_port L 1 1 (some "48988") with
      | none => simp [parse_and_set_options, mode_of_token, option_at, hL] at h
      | some la =>
        cases hT : E.resolve_address_port T 1 0 none with
        | none =>
          simp [parse_and_set_options, mode_of_token, option_at, parse_target, hL, hT] at h
        | some ta =>
          cases hS : E.steg_is_supported S with
          | false =>
            simp [parse_and_set_options, mode_of_token, option_at, parse_target,
              parse_stegname, hL, hT, hS] at h
          | true => exact ⟨L, T, S, la, ta, rfl, hL, hT, by first | rfl | exact hS⟩
    · simp [parse_and_set_options, mode_of_token, option_at] at h
  by_cases hk : tok = "socks"
  · subst hk
    rcases rest with _ | ⟨L, _ | ⟨S, _ | ⟨x, more⟩⟩⟩
    · simp [parse_and_set_options, mode_of_token, option_at] at h
    · simp [parse_and_set_options, mode_of_token, option_at] at h
    · right; left
      cases hL : E.resolve_address_port L 1 1 (some "23548") with
      | none => simp [parse_and_set_options, mode_of_token, option_at, hL] at h
      | some la =>
        cases hS : E.steg_is_supported S with
        | false =>
          simp [parse_and_set_options, mode_of_token, option_at, parse_target,
            parse_stegname, hL, hS] at h
        | true => exact ⟨L, S, la, rfl, hL, by first | rfl | exact hS⟩
    · simp [parse_and_set_options, mode_of_token, option_at] at h
  by_cases hv : tok = "server"
  · subst hv
    rcases rest with _ | ⟨L, _ | ⟨T, _ | ⟨x, more⟩⟩⟩
    · simp [parse_and_set_options, mode_of_token, option_at] at h
    · simp [parse_and_set_options, mode_of_token, option_at] at h
    · right; right
      cases hL : E.resolve_address_port L 1 1 (some "11253") with
      | none => simp [parse_and_set_options, mode_of_token, option_at, hL] at h
      | some la =>
        cases hT : E.resolve_address_port T 1 0 none with
        | none =>
          simp [parse_and_set_options, mode_of_token, option_at, parse_target, hL, hT] at h
        | some ta => exact ⟨L, T, la, ta, rfl, hL, hT⟩
    · simp [parse_and_set_options, mode_of_token, option_at] at h
  · simp [parse_and_set_options, mode_of_token, option_at, hc, hk, hv] at h

/-- C6: for every argument list `["client", L, T, S]` where `L` resolves as
a listen address, `T` resolves as a target address and `S` is a supported
scheme, `parse_and_set_options` returns 0 with mode `LSN_SIMPLE_CLIENT`, the
listen address the resolution of `L`, the target address the resolution of
`T` and the scheme name `S`, and `x_dsteg_config_create` returns that
configuration. -/
theorem parse_client_arguments (E : env σ) (L T S : String) (la ta : evutil_addrinfo)
    (hL : E.resolve_address_port L 1 1 (some "48988") = some la)
    (hT : E.resolve_address_port T 1 0 none = some ta)
    (hS : E.steg_is_supported S = true) :
    (parse_and_set_options E ["client", L, T, S] zeroed_config).rv = 0 ∧
    (parse_and_set_options E ["client", L, T, S] zeroed_config).cfg =
      ⟨.LSN_SIMPLE_CLIENT, some la, some ta, some S⟩ ∧
    (x_dsteg_config_create E ["client", L, T, S]).1 =
      some ⟨.LSN_SIMPLE_CLIENT, some la, some ta, some S⟩ := by
  have h := parse_client_ok E L T S zeroed_config la ta hL hT hS
  refine ⟨by rw [h], by rw [h], ?_⟩
  simp only [x_dsteg_config_create, h, if_true]

/-- C6 at the argument list of the specification. -/
theorem parse_client_arguments_witness :
    (parse_and_set_options sample_env
      ["client", "127.0.0.1:9000", "127.0.0.1:9001", "x_http"] zeroed_config).rv = 0 ∧
    (parse_and_set_options sample_env
      ["client", "127.0.0.1:9000", "127.0.0.1:9001", "x_http"] zeroed_config).cfg =
      ⟨.LSN_SIMPLE_CLIENT, some ⟨"127.0.0.1", "9000"⟩, some ⟨"127.0.0.1", "9001"⟩,
        some "x_http"⟩ ∧
    (x_dsteg_config_create sample_env
      ["client", "127.0.0.1:9000", "127.0.0.1:9001", "x_http"]).1 =
      some ⟨.LSN_SIMPLE_CLIENT, some ⟨"127.0.0.1", "9000"⟩, some ⟨"127.0.0.1", "9001"⟩,
        some "x_http"⟩ :=
  parse_client_arguments sample_env "127.0.0.1:9000" "127.0.0.1:9001" "x_http"
    ⟨"127.0.0.1", "9000"⟩ ⟨"127.0.0.1", "9001"⟩ (by decide) (by decide) (by decide)

/-- C7: after a successful `parse_and_set_options` on a zero-filled
configuration, the listen address is present, the target address is present
exactly when the mode is not `LSN_SOCKS_CLIENT`, and the scheme name is
present exactly when the mode is not `LSN_SIMPLE_SERVER`; in socks mode the
scheme name is `args[2]`, and in server mode the target address is the
resolution of `args[2]`. -/
theorem parse_success_fields (E : env σ) (options : List String)
    (h : (parse_and_set_options E options zeroed_config).rv = 0) :
    (parse_and_set_options E options zeroed_config).cfg.listen_addr.isSome = true ∧
    ((parse_and_set_options E options zeroed_config).cfg.target_addr.isSome = true ↔
      (parse_and_set_options E options zeroed_config).cfg.mode ≠ .LSN_SOCKS_CLIENT) ∧
    ((parse_and_set_options E options zeroed_config).cfg.stegname.isSome = true ↔
      (parse_and_set_options E options zeroed_config).cfg.mode ≠ .LSN_SIMPLE_SERVER) ∧
    ((parse_and_set_options E options zeroed_config).cfg.mode = .LSN_SOCKS_CLIENT →
      (parse_and_set_options E options zeroed_config).cfg.stegname = options[2]?) ∧
    ((parse_and_set_options E options zeroed_config).cfg.mode = .LSN_SIMPLE_SERVER →
      ∃ T, options[2]? = some T ∧
        (parse_and_set_options E options zeroed_config).cfg.target_addr =
          E.resolve_address_port T 1 0 none) := by
  rcases parse_ok_cases E options zeroed_config h with
    ⟨L, T, S, la, ta, rfl, hL, hT, hS⟩ | ⟨L, S, la, rfl, hL, hS⟩ | ⟨L, T, la, ta, rfl, hL, hT⟩
  · rw [parse_client_ok E L T S zeroed_config la ta hL hT hS]
    simp
  · rw [parse_socks_ok E L S zeroed_config la hL hS]
    simp [zeroed_config]
  · rw [parse_server_ok E L T zeroed_config la ta hL hT]
    simp [zeroed_config, hT]

/-- C7 at the two argument lists of the specification: the socks list
gives no target address, the server list gives no scheme name. -/
theorem parse_success_fields_witness :
    (parse_and_set_options sample_env ["socks", "127.0.0.1:9000", "x_http"]
      zeroed_config).cfg.target_addr = none ∧
    (parse_and_set_options sample_env ["socks", "127.0.0.1:9000", "x_http"]
      zeroed_config).cfg.stegname = some "x_http" ∧
    (parse_and_set_options sample_env ["server", "127.0.0.1:9000", "127.0.0.1:9001"]
      zeroed_config).cfg.stegname = none ∧
    (parse_and_set_options sample_env ["server", "127.0.0.1:9000", "127.0.0.1:9001"]
      zeroed_config).cfg.target_addr = some ⟨"127.0.0.1", "9001"⟩ := by
  have hk := parse_success_fields sample_env ["socks", "127.0.0.1:9000", "x_http"]
    (by decide)
  have hv := parse_success_fields sample_env ["server", "127.0.0.1:9000", "127.0.0.1:9001"]
    (by decide)
  have mk : (parse_and_set_options sample_env ["socks", "127.0.0.1:9000", "x_http"]
      zeroed_config).cfg.mode = .LSN_SOCKS_CLIENT := by decide
  have mv : (parse_and_set_options sample_env ["server", "127.0.0.1:9000", "127.0.0.1:9001"]
      zeroed_config).cfg.mode = .LSN_SIMPLE_SERVER := by decide
  refine ⟨?_, hk.2.2.2.1 mk, ?_, ?_⟩
  · have := hk.2.1
    rw [mk] at this
    simpa using this
  · have := hv.2.2.1
    rw [mv] at this
    simpa using this
  · obtain ⟨T, hT, ht⟩ := hv.2.2.2.2 mv
    have : T = "127.0.0.1:9001" := by simpa using hT.symm
    rw [ht, this]
    decide

/-- C8: for every argument list that starts with a mode token and whose
length is not the count required by that mode (client 4, socks 3, server 3),
`parse_and_set_options` returns the failure value -1 from its count check:
it has made no collaborator call (no address resolution, no scheme lookup),
no address or scheme field has been written, and `x_dsteg_config_create`
returns no configuration. -/
theorem parse_bad_count (E : env σ) (tok : String) (rest : List String)
    (c0 : x_dsteg_config_t)
    (h : (tok = "client" ∧ (tok :: rest).length ≠ 4) ∨
      (tok = "socks" ∧ (tok :: rest).length ≠ 3) ∨
      (tok = "server" ∧ (tok :: rest).length ≠ 3)) :
    (parse_and_set_options E (tok :: rest) c0).rv = -1 ∧
    (parse_and_set_options E (tok :: rest) c0).calls = [] ∧
    (parse_and_set_options E (tok :: rest) c0).cfg.listen_addr = c0.listen_addr ∧
    (parse_and_set_options E (tok :: rest) c0).cfg.target_addr = c0.target_addr ∧
    (parse_and_set_options E (tok :: rest) c0).cfg.stegname = c0.stegname ∧
    x_dsteg_config_create E (tok :: rest) = (none, []) := by
  have key : ∀ c : x_dsteg_config_t, ∃ m,
      parse_and_set_options E (tok :: rest) c = ⟨-1, { c with mode := m }, []⟩ := by
    intro c
    rcases h with ⟨rfl, hn⟩ | ⟨rfl, hn⟩ | ⟨rfl, hn⟩
    · refine ⟨.LSN_SIMPLE_CLIENT, ?_⟩
      simp only [List.length_cons] at hn
      simp [parse_and_set_options, mode_of_token, option_at, hn]
    · refine ⟨.LSN_SOCKS_CLIENT, ?_⟩
      simp only [List.length_cons] at hn
      simp [parse_and_set_options, mode_of_token, option_at, hn]
    · refine ⟨.LSN_SIMPLE_SERVER, ?_⟩
      simp only [List.length_cons] at hn
      simp [parse_and_set_options, mode_of_token, option_at, hn]
  obtain ⟨m, hm⟩ := key c0
  obtain ⟨m0, hm0⟩ := key zeroed_config
  refine ⟨by rw [hm], by rw [hm], by rw [hm], by rw [hm], by rw [hm], ?_⟩
  unfold x_dsteg_config_create
  rw [hm0]
  rfl

/-- C8 at the argument list of the specification. -/
theorem parse_bad_count_witness :
    (parse_and_set_options sample_env ["client", "127.0.0.1:9000"] zeroed_config).rv = -1 ∧
    (parse_and_set_options sample_env ["client", "127.0.0.1:9000"] zeroed_config).calls = [] ∧
    (parse_and_set_options sample_env ["client", "127.0.0.1:9000"]
      zeroed_config).cfg.listen_addr = none ∧
    (parse_and_set_options sample_env ["client", "127.0.0.1:9000"]
      zeroed_config).cfg.target_addr = none ∧
    (parse_and_set_options sample_env ["client", "127.0.0.1:9000"]
      zeroed_config).cfg.stegname = none ∧
    x_dsteg_config_create sample_env ["client", "127.0.0.1:9000"] = (none, []) :=
  parse_bad_count sample_env "client" ["127.0.0.1:9000"] zeroed_config
    (Or.inl ⟨rfl, by decide⟩)

/-- The acceptance condition holds exactly for the three well-formed
shapes. -/
theorem options_accepted_cases (E : env σ) (options : List String)
    (h : options_accepted E options = true) :
    (∃ L T S la ta, options = ["client", L, T, S] ∧
      E.resolve_address_port L 1 1 (some "48988") = some la ∧
      E.resolve_address_port T 1 0 none = some ta ∧ E.steg_is_supported S = true) ∨
    (∃ L S la, options = ["socks", L, S] ∧
      E.resolve_address_port L 1 1 (some "23548") = some la ∧
      E.steg_is_supported S = true) ∨
    (∃ L T la ta, options = ["server", L, T] ∧
      E.resolve_address_port L 1 1 (some "11253") = some la ∧
      E.resolve_address_port T 1 0 none = some ta) := by
  rcases options with _ | ⟨tok, rest⟩
  · simp [options_accepted] at h
  simp only [options_accepted, List.head?_cons, Bool.and_eq_true, Bool.or_eq_true,
    decide_eq_true_eq, List.length_cons, Option.isSome_iff_exists] at h
  obtain ⟨⟨⟨⟨htok, hlen⟩, ⟨la, hL⟩⟩, hT⟩, hS⟩ := h
  rcases htok with (rfl | rfl) | rfl
  · left
    rcases rest with _ | ⟨L, _ | ⟨T, _ | ⟨S, _ | ⟨x, more⟩⟩⟩⟩ <;> simp at hlen
    simp [option_at] at hL hT hS
    obtain ⟨ta, hT⟩ := hT
    exact ⟨L, T, S, la, ta, rfl, hL, hT, hS⟩
  · right; left
    rcases rest with _ | ⟨L, _ | ⟨S, _ | ⟨x, more⟩⟩⟩ <;> simp at hlen
    simp [option_at] at hL hS
    exact ⟨L, S, la, rfl, hL, hS⟩
  · right; right
    rcases rest with _ | ⟨L, _ | ⟨T, _ | ⟨x, more⟩⟩⟩ <;> simp at hlen
    simp [option_at] at hL hT
    obtain ⟨ta, hT⟩ := hT
    exact ⟨L, T, la, ta, rfl, hL, hT⟩

/-- C9: `parse_and_set_options` returns 0 exactly when the argument list
meets the acceptance condition of the specification (a mode token first,
the count required by the mode, a resolvable listen address, a resolvable
target address unless socks, a supported scheme unless server); and
`x_dsteg_config_create` returns a configuration exactly when the parse
returns 0, namely the parsed one, and returns no configuration on every
failure. -/
theorem parse_succeeds_iff (E : env σ) (options : List String) :
    ((parse_and_set_options E options zeroed_config).rv = 0 ↔
      options_accepted E options = true) ∧
    (x_dsteg_config_create E options).1 =
      (if (parse_and_set_options E options zeroed_config).rv = 0 then
        some (parse_and_set_options E options zeroed_config).cfg
       else none) := by
  refine ⟨⟨fun h => ?_, fun h => ?_⟩, ?_⟩
  · rcases parse_ok_cases E options zeroed_config h with
      ⟨L, T, S, la, ta, rfl, hL, hT, hS⟩ | ⟨L, S, la, rfl, hL, hS⟩ |
      ⟨L, T, la, ta, rfl, hL, hT⟩
    · simp [options_accepted, option_at, hL, hT, hS]
    · simp [options_accepted, option_at, hL, hS]
    · simp [options_accepted, option_at, hL, hT]
  · rcases options_accepted_cases E options h with
      ⟨L, T, S, la, ta, rfl, hL, hT, hS⟩ | ⟨L, S, la, rfl, hL, hS⟩ |
      ⟨L, T, la, ta, rfl, hL, hT⟩
    · rw [parse_client_ok E L T S zeroed_config la ta hL hT hS]
    · rw [parse_socks_ok E L S zeroed_config la hL hS]
    · rw [parse_server_ok E L T zeroed_config la ta hL hT]
  · unfold x_dsteg_config_create
    simp only
    split_ifs <;> rfl

end config_theorems

section transfer_theorems

variable {σ : Type}

/-- C16: in a send with a steg instance and non-zero room, every chunk
handed to `steg_transmit` is the first `min room |B|` bytes of the source
contents `B`, in order, and the source then holds the rest of `B` (chunk and
rest concatenate to `B`, and the chunk has at most `room` bytes); when
neither `evbuffer_new` nor `evbuffer_remove_buffer` fails exactly one such
chunk is handed over, which is the empty chunk when `B` is empty. -/
theorem circuit_send_chunk (E : env σ) (c : circuit_t σ) (d : x_dsteg_conn_t σ)
    (g : steg_t σ) (hd : c.downstream = some d) (hg : d.steg = some g)
    (hroom : E.steg_transmit_room g d ≠ 0) :
    ∃ r, x_dsteg_circuit_send E c = .ok r ∧
      (∀ chunk ∈ transmitted r.calls,
        chunk = c.up_input.take (min (E.steg_transmit_room g d) c.up_input.length) ∧
        r.ckt.up_input = c.up_input.drop (E.steg_transmit_room g d) ∧
        chunk ++ r.ckt.up_input = c.up_input ∧
        chunk.length = min (E.steg_transmit_room g d) c.up_input.length ∧
        chunk.length ≤ E.steg_transmit_room g d) ∧
      (E.evbuffer_new_ok = true → E.evbuffer_remove_ok = true →
        transmitted r.calls = [c.up_input.take (E.steg_transmit_room g d)] ∧
        (c.up_input = [] → transmitted r.calls = [[]])) := by
  have htake : c.up_input.take (min (E.steg_transmit_room g d) c.up_input.length) =
      c.up_input.take (E.steg_transmit_room g d) := by
    rcases Nat.le_total (E.steg_transmit_room g d) c.up_input.length with h | h
    · rw [Nat.min_eq_left h]
    · rw [Nat.min_eq_right h, List.take_of_length_le h, List.take_of_length_le (le_refl _)]
  cases hnew : E.evbuffer_new_ok with
  | false =>
    refine ⟨⟨-1, { c with flush_timer := none }, [.steg_transmit_room]⟩, ?_, ?_, ?_⟩
    · simp [x_dsteg_circuit_send, hd, hg, hroom, hnew, circuit_disarm_flush_timer]
    · intro chunk hmem
      simp [transmitted] at hmem
    · intro h
      exact absurd h (by simp)
  | true =>
    cases hrm : E.evbuffer_remove_ok with
    | false =>
      refine ⟨⟨-1, { c with flush_timer := none }, [.steg_transmit_room]⟩, ?_, ?_, ?_⟩
      · simp [x_dsteg_circuit_send, hd, hg, hroom, hnew, hrm, circuit_disarm_flush_timer,
          evbuffer_remove_buffer, circuit_send_finish]
      · intro chunk hmem
        simp [transmitted] at hmem
      · intro _ h
        exact absurd h (by simp)
    | true =>
      have key : ∃ r, x_dsteg_circuit_send E c = .ok r ∧
          r.ckt.up_input = c.up_input.drop (E.steg_transmit_room g d) ∧
          transmitted r.calls = [c.up_input.take (E.steg_transmit_room g d)] := by
        simp only [x_dsteg_circuit_send, hd, hg, hnew, hrm, evbuffer_remove_buffer,
          circuit_disarm_flush_timer, circuit_send_finish, circuit_arm_flush_timer]
        simp only [ne_eq, hroom, not_false_eq_true, if_true, List.nil_append, ge_iff_le,
          Nat.cast_nonneg]
        split_ifs <;> exact ⟨_, rfl, rfl, rfl⟩
      obtain ⟨r, hr, hup, htr⟩ := key
      refine ⟨r, hr, ?_, fun _ _ => ⟨htr, fun hB => ?_⟩⟩
      · intro chunk hmem
        rw [htr] at hmem
        have hc : chunk = c.up_input.take (E.steg_transmit_room g d) := by simpa using hmem
        refine ⟨by rw [hc, htake], hup, ?_, ?_, ?_⟩
        · rw [hc, hup, List.take_append_drop]
        · rw [hc, List.length_take]
        · rw [hc, List.length_take]; exact Nat.min_le_left _ _
      · rw [htr, hB, List.take_nil]

/-- C16 at a concrete input: three pending bytes and room for two. -/
theorem circuit_send_chunk_witness :
    ∃ r, x_dsteg_circuit_send sample_env
        (sample_circuit (some (sample_conn (some ⟨7, 2⟩) [])) [10, 20, 30] none) = .ok r ∧
      (∀ chunk ∈ transmitted r.calls,
        chunk = [10, 20] ∧ r.ckt.up_input = [30] ∧ chunk ++ r.ckt.up_input = [10, 20, 30] ∧
        chunk.length = 2 ∧ chunk.length ≤ 2) ∧
      (sample_env.evbuffer_new_ok = true → sample_env.evbuffer_remove_ok = true →
        transmitted r.calls = [[10, 20]] ∧
        (([10, 20, 30] : evbuffer) = [] → transmitted r.calls = [[]])) :=
  circuit_send_chunk sample_env
    (sample_circuit (some (sample_conn (some ⟨7, 2⟩) [])) [10, 20, 30] none)
    (sample_conn (some ⟨7, 2⟩) []) ⟨7, 2⟩ rfl rfl (by decide)

/-- C17: a send with a steg instance returns 0 exactly when the room is
zero or neither `evbuffer_new`, `evbuffer_remove_buffer` nor `steg_transmit`
fails; and whenever it returns 0 the upstream source buffer holds what is
left after the first `room` bytes and the flush timer is armed, with a delay
of 200 ms, exactly when that rest is not empty, and disarmed exactly when it
is empty, whatever the timer state was before the call. -/
theorem circuit_send_timer (E : env σ) (c : circuit_t σ) (d : x_dsteg_conn_t σ)
    (g : steg_t σ) (hd : c.downstream = some d) (hg : d.steg = some g) :
    ∃ r, x_dsteg_circuit_send E c = .ok r ∧
      (r.rv = 0 ↔
        (E.steg_transmit_room g d = 0 ∨
          (E.evbuffer_new_ok = true ∧ E.evbuffer_remove_ok = true ∧
            0 ≤ (E.steg_transmit g (c.up_input.take (E.steg_transmit_room g d)) d).1))) ∧
      (r.rv = 0 →
        r.ckt.up_input = c.up_input.drop (E.steg_transmit_room g d) ∧
        r.ckt.flush_timer =
          (if c.up_input.drop (E.steg_transmit_room g d) = [] then none else some 200) ∧
        (r.ckt.flush_timer = some 200 ↔ r.ckt.up_input ≠ []) ∧
        (r.ckt.flush_timer = none ↔ r.ckt.up_input = []) ∧
        (∀ ms, r.ckt.flush_timer = some ms → ms = 200 ∧ r.ckt.up_input ≠ [])) := by
  have post : ∀ (l : evbuffer) (t : Option Nat),
      t = (if l.length > 0 then some 200 else none) →
      t = (if l = [] then none else some 200) ∧ (t = some 200 ↔ l ≠ []) ∧
        (t = none ↔ l = []) ∧ (∀ ms, t = some ms → ms = 200 ∧ l ≠ []) := by
    intro l t ht
    cases l with
    | nil =>
      have : t = none := by simpa using ht
      subst this
      simp
    | cons x xs =>
      have : t = some 200 := by simpa using ht
      subst this
      refine ⟨by simp, by simp, by simp, fun ms h => ?_⟩
      simp only [Option.some.injEq] at h
      exact ⟨h.symm, by simp⟩
  by_cases hroom : E.steg_transmit_room g d = 0
  · refine ⟨_, circuit_send_room_zero E c d g hd hg hroom, ?_, fun _ => ?_⟩
    · simp [hroom]
    · have hdrop : c.up_input.drop (E.steg_transmit_room g d) = c.up_input := by
        rw [hroom]; rfl
      rw [hdrop]
      exact ⟨rfl, post c.up_input _ rfl⟩
  cases hnew : E.evbuffer_new_ok with
  | false =>
    refine ⟨⟨-1, { c with flush_timer := none }, [.steg_transmit_room]⟩, ?_, ?_, ?_⟩
    · simp [x_dsteg_circuit_send, hd, hg, hroom, hnew, circuit_disarm_flush_timer]
    · simp [hroom]
    · intro h; simp at h
  | true =>
    cases hrm : E.evbuffer_remove_ok with
    | false =>
      refine ⟨⟨-1, { c with flush_timer := none }, [.steg_transmit_room]⟩, ?_, ?_, ?_⟩
      · simp [x_dsteg_circuit_send, hd, hg, hroom, hnew, hrm, circuit_disarm_flush_timer,
          evbuffer_remove_buffer, circuit_send_finish]
      · simp [hroom]
      · intro h; simp at h
    | true =>
      by_cases htx : (E.steg_transmit g (c.up_input.take (E.steg_transmit_room g d)) d).1 < 0
      · have key : ∃ r, x_dsteg_circuit_send E c = .ok r ∧ r.rv = -1 := by
          simp only [x_dsteg_circuit_send, hd, hg, hnew, hrm, evbuffer_remove_buffer,
            circuit_disarm_flush_timer, circuit_send_finish]
          simp only [ne_eq, hroom, not_false_eq_true, if_true, List.nil_append, ge_iff_le,
            Nat.cast_nonneg, htx]
          exact ⟨_, rfl, rfl⟩
        obtain ⟨r, hr, hrv⟩ := key
        refine ⟨r, hr, ?_, fun h => ?_⟩
        · simp [hrv, hroom, htx]
        · rw [hrv] at h; simp at h
      · refine ⟨_, circuit_send_room_pos E c d g hd hg hroom hnew hrm (not_lt.mp htx), ?_,
          fun _ => ⟨rfl, post _ _ rfl⟩⟩
        simp [hroom, not_lt.mp htx]

/-- C17 at three concrete inputs: room for two of three pending bytes with
the timer disarmed before the call (armed afterwards), room for all three
with the timer armed before the call (disarmed afterwards), and no room with
three pending bytes (armed afterwards). -/
theorem circuit_send_timer_witness :
    (∃ r, x_dsteg_circuit_send sample_env
        (sample_circuit (some (sample_conn (some ⟨7, 2⟩) [])) [10, 20, 30] none) = .ok r ∧
      r.rv = 0 ∧ r.ckt.up_input = [30] ∧ r.ckt.flush_timer = some 200) ∧
    (∃ r, x_dsteg_circuit_send sample_env
        (sample_circuit (some (sample_conn (some ⟨7, 5⟩) [])) [10, 20, 30] (some 200)) =
        .ok r ∧
      r.rv = 0 ∧ r.ckt.up_input = [] ∧ r.ckt.flush_timer = none) ∧
    (∃ r, x_dsteg_circuit_send sample_env
        (sample_circuit (some (sample_conn (some ⟨7, 0⟩) [])) [10, 20, 30] none) = .ok r ∧
      r.rv = 0 ∧ r.ckt.up_input = [10, 20, 30] ∧ r.ckt.flush_timer = some 200) := by
  refine ⟨?_, ?_, ?_⟩
  · obtain ⟨r, hr, hiff, hpost⟩ := circuit_send_timer sample_env
      (sample_circuit (some (sample_conn (some ⟨7, 2⟩) [])) [10, 20, 30] none)
      (sample_conn (some ⟨7, 2⟩) []) ⟨7, 2⟩ rfl rfl
    have h0 : r.rv = 0 := hiff.mpr (Or.inr ⟨rfl, rfl, le_refl 0⟩)
    exact ⟨r, hr, h0, (hpost h0).1, (hpost h0).2.1⟩
  · obtain ⟨r, hr, hiff, hpost⟩ := circuit_send_timer sample_env
      (sample_circuit (some (sample_conn (some ⟨7, 5⟩) [])) [10, 20, 30] (some 200))
      (sample_conn (some ⟨7, 5⟩) []) ⟨7, 5⟩ rfl rfl
    have h0 : r.rv = 0 := hiff.mpr (Or.inr ⟨rfl, rfl, le_refl 0⟩)
    exact ⟨r, hr, h0, (hpost h0).1, (hpost h0).2.1⟩
  · obtain ⟨r, hr, hiff, hpost⟩ := circuit_send_timer sample_env
      (sample_circuit (some (sample_conn (some ⟨7, 0⟩) [])) [10, 20, 30] none)
      (sample_conn (some ⟨7, 0⟩) []) ⟨7, 0⟩ rfl rfl
    have h0 : r.rv = 0 := hiff.mpr (Or.inl rfl)
    exact ⟨r, hr, h0, (hpost h0).1, (hpost h0).2.1⟩

/-- C18: a send with a steg instance returns 0 or -1; it returns -1 exactly
when the room is not zero and `evbuffer_new` fails, or
`evbuffer_remove_buffer` fails, or `steg_transmit` reports a negative value
for the chunk; after every return of -1 the flush timer is disarmed, and
with room zero the send returns 0. -/
theorem circuit_send_failure (E : env σ) (c : circuit_t σ) (d : x_dsteg_conn_t σ)
    (g : steg_t σ) (hd : c.downstream = some d) (hg : d.steg = some g) :
    ∃ r, x_dsteg_circuit_send E c = .ok r ∧ (r.rv = 0 ∨ r.rv = -1) ∧
      (r.rv = -1 ↔
        E.steg_transmit_room g d ≠ 0 ∧
          (E.evbuffer_new_ok = false ∨ E.evbuffer_remove_ok = false ∨
            (E.steg_transmit g (c.up_input.take (E.steg_transmit_room g d)) d).1 < 0)) ∧
      (r.rv = -1 → r.ckt.flush_timer = none) ∧
      (E.steg_transmit_room g d = 0 → r.rv = 0) := by
  by_cases hroom : E.steg_transmit_room g d = 0
  · refine ⟨_, circuit_send_room_zero E c d g hd hg hroom, Or.inl rfl, ?_, ?_, fun _ => rfl⟩
    · simp [hroom]
    · intro h; simp at h
  cases hnew : E.evbuffer_new_ok with
  | false =>
    refine ⟨⟨-1, { c with flush_timer := none }, [.steg_transmit_room]⟩, ?_, Or.inr rfl, ?_,
      fun _ => rfl, fun h => absurd h hroom⟩
    · simp [x_dsteg_circuit_send, hd, hg, hroom, hnew, circuit_disarm_flush_timer]
    · simp [hroom]
  | true =>
    cases hrm : E.evbuffer_remove_ok with
    | false =>
      refine ⟨⟨-1, { c with flush_timer := none }, [.steg_transmit_room]⟩, ?_, Or.inr rfl, ?_,
        fun _ => rfl, fun h => absurd h hroom⟩
      · simp [x_dsteg_circuit_send, hd, hg, hroom, hnew, hrm, circuit_disarm_flush_timer,
          evbuffer_remove_buffer, circuit_send_finish]
      · simp [hroom]
    | true =>
      by_cases htx : (E.steg_transmit g (c.up_input.take (E.steg_transmit_room g d)) d).1 < 0
      · have key : ∃ r, x_dsteg_circuit_send E c = .ok r ∧ r.rv = -1 ∧
            r.ckt.flush_timer = none := by
          simp only [x_dsteg_circuit_send, hd, hg, hnew, hrm, evbuffer_remove_buffer,
            circuit_disarm_flush_timer, circuit_send_finish]
          simp only [ne_eq, hroom, not_false_eq_true, if_true, List.nil_append, ge_iff_le,
            Nat.cast_nonneg, htx]
          exact ⟨_, rfl, rfl, rfl⟩
        obtain ⟨r, hr, hrv, hft⟩ := key
        refine ⟨r, hr, Or.inr hrv, ?_, fun _ => hft, fun h => absurd h hroom⟩
        simp [hrv, hroom, htx]
      · refine ⟨_, circuit_send_room_pos E c d g hd hg hroom hnew hrm (not_lt.mp htx),
          Or.inl rfl, ?_, ?_, fun h => absurd h hroom⟩
        · simp [htx]
        · intro h; simp at h

/-- C18 at a concrete input: room for two of three pending bytes. -/
theorem circuit_send_failure_witness :
    ∃ r, x_dsteg_circuit_send sample_env
        (sample_circuit (some (sample_conn (some ⟨7, 2⟩) [])) [10, 20, 30] none) = .ok r ∧
      (r.rv = 0 ∨ r.rv = -1) ∧
      (r.rv = -1 ↔
        (2 : Nat) ≠ 0 ∧
          (sample_env.evbuffer_new_ok = false ∨ sample_env.evbuffer_remove_ok = false ∨
            (sample_env.steg_transmit ⟨7, 2⟩ [10, 20] (sample_conn (some ⟨7, 2⟩) [])).1 < 0)) ∧
      (r.rv = -1 → r.ckt.flush_timer = none) ∧
      ((2 : Nat) = 0 → r.rv = 0) :=
  circuit_send_failure sample_env
    (sample_circuit (some (sample_conn (some ⟨7, 2⟩) [])) [10, 20, 30] none)
    (sample_conn (some ⟨7, 2⟩) []) ⟨7, 2⟩ rfl rfl

end transfer_theorems

section recv_theorems

variable {σ : Type}

/-- The registry scan finds nothing when no detector matches. -/
theorem steg_detect_no_match (supported_stegs : List (steg_module σ)) (addr : Nat)
    (conn : x_dsteg_conn_t σ) (hno : ∀ m ∈ supported_stegs, m.detect conn = false) :
    steg_detect supported_stegs addr conn = none := by
  induction supported_stegs with
  | nil => rfl
  | cons m rest ih =>
    have hm : m.detect conn = false := hno m (List.mem_cons_self _ _)
    have hrest : ∀ m1 ∈ rest, m1.detect conn = false :=
      fun m1 h1 => hno m1 (List.mem_cons_of_mem _ h1)
    simp [steg_detect, hm, ih hrest]

/-- The registry scan yields an instance exactly when some detector
matches. -/
theorem steg_detect_some_iff (supported_stegs : List (steg_module σ)) (addr : Nat)
    (conn : x_dsteg_conn_t σ) :
    (∃ g, steg_detect supported_stegs addr conn = some g) ↔
      ∃ m ∈ supported_stegs, m.detect conn = true := by
  induction supported_stegs with
  | nil => simp [steg_detect]
  | cons m rest ih =>
    cases hm : m.detect conn with
    | true => simp [steg_detect, hm]
    | false => simp [steg_detect, hm, ih]

/-- An undetected server-mode connection with inbound bytes on which
`steg_detect` finds nothing. -/
theorem conn_recv_detect_none (E : env σ) (c : circuit_t σ) (s : x_dsteg_conn_t σ)
    (hs : c.downstream = some s) (hg : s.steg = none)
    (hmode : s.cfg.mode = .LSN_SIMPLE_SERVER) (hin : s.inbound ≠ [])
    (hdet : E.steg_detect s = none) :
    x_dsteg_conn_recv E c = .ok ⟨.RECV_BAD, c, [.steg_detect]⟩ := by
  simp [x_dsteg_conn_recv, hs, hg, hmode, hin, obfs_assert, hdet]

/-- An undetected server-mode connection with inbound bytes on which
`steg_detect` yields an instance: the receive path runs on the connection
with that instance and otherwise as it was. -/
theorem conn_recv_detect_some (E : env σ) (c : circuit_t σ) (s : x_dsteg_conn_t σ)
    (g : steg_t σ) (hs : c.downstream = some s) (hg : s.steg = none)
    (hmode : s.cfg.mode = .LSN_SIMPLE_SERVER) (hin : s.inbound ≠ [])
    (hdet : E.steg_detect s = some g) :
    x_dsteg_conn_recv E c =
      conn_recv_detected E c { s with steg := some g } g [.steg_detect] := by
  simp [x_dsteg_conn_recv, hs, hg, hmode, hin, obfs_assert, hdet]

/-- A send makes no `steg_receive` call and does not log itself. -/
theorem circuit_send_calls_shape (E : env σ) (c : circuit_t σ) (r : send_result σ)
    (h : x_dsteg_circuit_send E c = .ok r) :
    receive_calls r.calls = 0 ∧ circuit_send_calls r.calls = 0 ∧
      call.steg_detect ∉ r.calls := by
  unfold x_dsteg_circuit_send at h
  split at h
  · simp at h
  · split at h
    · simp only [Except.ok.injEq] at h
      subst h
      simp [receive_calls, circuit_send_calls]
    · simp only [circuit_send_finish] at h
      split_ifs at h <;>
        (simp only [Except.ok.injEq] at h
         subst h
         simp [receive_calls, circuit_send_calls])

/-- A send on a circuit with a downstream returns 0 or -1 and leaves a
downstream. -/
theorem circuit_send_returns (E : env σ) (c : circuit_t σ) (d : x_dsteg_conn_t σ)
    (hd : c.downstream = some d) :
    ∃ r s1, x_dsteg_circuit_send E c = .ok r ∧ (r.rv = 0 ∨ r.rv = -1) ∧
      r.ckt.downstream = some s1 ∧ s1.cfg = d.cfg ∧
      (s1.steg = none ↔ d.steg = none) ∧ s1.inbound = d.inbound := by
  simp only [x_dsteg_circuit_send, hd, circuit_send_finish, circuit_disarm_flush_timer,
    circuit_arm_flush_timer]
  cases hg : d.steg with
  | none => exact ⟨_, d, rfl, Or.inl rfl, rfl, rfl, by simp [hg], rfl⟩
  | some g =>
    simp only
    split_ifs <;>
      first
      | exact ⟨_, _, rfl, Or.inl rfl, rfl, rfl, by simp [hg], rfl⟩
      | exact ⟨_, _, rfl, Or.inr rfl, rfl, rfl, by simp [hg], rfl⟩

theorem receive_calls_append (xs ys : List call) :
    receive_calls (xs ++ ys) = receive_calls xs + receive_calls ys := by
  induction xs with
  | nil => simp [receive_calls]
  | cons x xs ih =>
    cases x <;> simp [receive_calls, ih]
    omega

theorem circuit_send_calls_append (xs ys : List call) :
    circuit_send_calls (xs ++ ys) = circuit_send_calls xs + circuit_send_calls ys := by
  induction xs with
  | nil => simp [circuit_send_calls]
  | cons x xs ih =>
    cases x <;> simp [circuit_send_calls, ih]
    omega

/-- An undetected server-mode connection with an empty inbound buffer. -/
theorem conn_recv_incomplete_on_empty (E : env σ) (c : circuit_t σ) (s : x_dsteg_conn_t σ)
    (hs : c.downstream = some s) (hg : s.steg = none)
    (hmode : s.cfg.mode = .LSN_SIMPLE_SERVER) (hin : s.inbound = []) :
    x_dsteg_conn_recv E c = .ok ⟨.RECV_INCOMPLETE, c, []⟩ := by
  simp [x_dsteg_conn_recv, hs, hg, hmode, hin, obfs_assert]

/-- The receive path of `x_dsteg_conn_recv` on connection `s` with instance
`g`: one `steg_receive` call on the inbound buffer of `s` with the
upstream-outbound buffer as destination; its result code is returned unless
it is `RECV_GOOD` with bytes pending in the upstream source, in which case
one send follows and decides between `RECV_GOOD` and `RECV_BAD`. -/
theorem conn_recv_detected_outcome (E : env σ) (c : circuit_t σ) (s : x_dsteg_conn_t σ)
    (g : steg_t σ) (pre : List call) :
    ∃ r rest, conn_recv_detected E c s g pre = .ok r ∧
      r.calls = pre ++ .steg_receive s.inbound c.up_output :: rest ∧
      receive_calls rest = 0 ∧
      ((E.steg_receive g s c.up_output).1 ≠ .RECV_GOOD →
        r.ret = (E.steg_receive g s c.up_output).1 ∧ rest = [] ∧
        r.ckt.up_input = c.up_input ∧ r.ckt.flush_timer = c.flush_timer) ∧
      ((E.steg_receive g s c.up_output).1 = .RECV_GOOD → c.up_input = [] →
        r.ret = .RECV_GOOD ∧ rest = [] ∧
        r.ckt.up_input = c.up_input ∧ r.ckt.flush_timer = c.flush_timer) ∧
      ((E.steg_receive g s c.up_output).1 = .RECV_GOOD → c.up_input ≠ [] →
        ∃ sr, x_dsteg_circuit_send E
            { c with
              downstream := some { s with
                steg := some { g with obj := (E.steg_receive g s c.up_output).2.1 },
                inbound := (E.steg_receive g s c.up_output).2.2.1 },
              up_output := (E.steg_receive g s c.up_output).2.2.2 } = .ok sr ∧
          (sr.rv = 0 ∨ sr.rv = -1) ∧ rest = .circuit_send :: sr.calls ∧
          circuit_send_calls sr.calls = 0 ∧ r.ckt = sr.ckt ∧
          (sr.rv = 0 → r.ret = .RECV_GOOD) ∧ (sr.rv = -1 → r.ret = .RECV_BAD)) := by
  unfold conn_recv_detected
  simp only
  split_ifs with h1 h2
  · exact ⟨_, [], rfl, rfl, rfl, fun _ => ⟨rfl, rfl, rfl, rfl⟩, fun h => absurd h h1,
      fun h => absurd h h1⟩
  · have hnil : c.up_input = [] := List.length_eq_zero.mp h2
    exact ⟨_, [], rfl, rfl, rfl, fun h => absurd (not_not.mp h1) h,
      fun _ _ => ⟨rfl, rfl, rfl, rfl⟩, fun _ h => absurd hnil h⟩
  · obtain ⟨sr, s1, hsr, hrv, -, -, -, -⟩ := circuit_send_returns E
      { c with
        downstream := some { s with
          steg := some { g with obj := (E.steg_receive g s c.up_output).2.1 },
          inbound := (E.steg_receive g s c.up_output).2.2.1 },
        up_output := (E.steg_receive g s c.up_output).2.2.2 } _ rfl
    obtain ⟨hrc, hsc, -⟩ := circuit_send_calls_shape E _ sr hsr
    rw [hsr]
    refine ⟨_, .circuit_send :: sr.calls, rfl, by simp, by simpa [receive_calls] using hrc,
      fun h => absurd (not_not.mp h1) h, fun _ h => ?_, fun _ _ => ?_⟩
    · rw [h] at h2; simp at h2
    · refine ⟨sr, rfl, hrv, rfl, hsc, rfl, fun h0 => ?_, fun h0 => ?_⟩
      · simp [h0]
      · simp [h0]

/-- C11: on a server-mode connection without a steg instance and with a
non-empty inbound buffer, when no detector of the registry matches,
`x_dsteg_conn_recv` returns `RECV_BAD`; the circuit and the connection are
as before (still no instance, the same buffers and flush timer), and the
only collaborator call is the detection (no receive, no send). -/
theorem conn_recv_no_match (E : env σ) (supported_stegs : List (steg_module σ)) (addr : Nat)
    (c : circuit_t σ) (s : x_dsteg_conn_t σ)
    (hs : c.downstream = some s) (hg : s.steg = none)
    (hmode : s.cfg.mode = .LSN_SIMPLE_SERVER) (hin : s.inbound ≠ [])
    (hno : ∀ m ∈ supported_stegs, m.detect s = false) :
    x_dsteg_conn_recv (with_registry E supported_stegs addr) c =
      .ok ⟨.RECV_BAD, c, [.steg_detect]⟩ :=
  conn_recv_detect_none (with_registry E supported_stegs addr) c s hs hg hmode hin
    (steg_detect_no_match supported_stegs addr s hno)

/-- C11 at a concrete input: inbound bytes that do not start with `71`,
pending upstream bytes and an armed timer. -/
theorem conn_recv_no_match_witness :
    x_dsteg_conn_recv (with_registry sample_env sample_registry 2)
        (sample_circuit (some (sample_conn none [1, 2])) [10, 20, 30] (some 200)) =
      .ok ⟨.RECV_BAD, sample_circuit (some (sample_conn none [1, 2])) [10, 20, 30] (some 200),
        [.steg_detect]⟩ :=
  conn_recv_no_match sample_env sample_registry 2 _ (sample_conn none [1, 2]) rfl rfl rfl
    (by decide) (by decide)

/-- C12: when `x_dsteg_conn_recv` runs detection on a server-mode connection
without a steg instance, detection leaves the inbound buffer as it was when
the call began: on no match the call returns `RECV_BAD` with the circuit and
the connection, inbound buffer included, unchanged; on a match the single
`steg_receive` call that follows is made on exactly the inbound bytes that
were buffered when the call began, and the inbound buffer afterwards is the
one that call leaves. -/
theorem detection_keeps_inbound (E : env σ) (supported_stegs : List (steg_module σ))
    (addr : Nat) (c : circuit_t σ) (s : x_dsteg_conn_t σ)
    (hs : c.downstream = some s) (hg : s.steg = none)
    (hmode : s.cfg.mode = .LSN_SIMPLE_SERVER) (hin : s.inbound ≠ []) :
    (steg_detect supported_stegs addr s = none ∧
      x_dsteg_conn_recv (with_registry E supported_stegs addr) c =
        .ok ⟨.RECV_BAD, c, [.steg_detect]⟩) ∨
    (∃ g r rest s1, steg_detect supported_stegs addr s = some g ∧
      x_dsteg_conn_recv (with_registry E supported_stegs addr) c = .ok r ∧
      r.calls = .steg_detect :: .steg_receive s.inbound c.up_output :: rest ∧
      receive_calls rest = 0 ∧ call.steg_detect ∉ rest ∧
      r.ckt.downstream = some s1 ∧
      s1.inbound = (E.steg_receive g ⟨s.cfg, some g, s.inbound, s.outbound⟩ c.up_output).2.2.1) := by
  cases hdet : steg_detect supported_stegs addr s with
  | none =>
    exact Or.inl ⟨rfl, conn_recv_detect_none (with_registry E supported_stegs addr) c s hs hg
      hmode hin hdet⟩
  | some g =>
    right
    have hrun := conn_recv_detect_some (with_registry E supported_stegs addr) c s g hs hg
      hmode hin hdet
    obtain ⟨r, rest, hr, hcalls, hrc, hbad, hidle, hsend⟩ :=
      conn_recv_detected_outcome (with_registry E supported_stegs addr) c
        { s with steg := some g } g [.steg_detect]
    have hrest : call.steg_detect ∉ rest ∧ ∃ s1, r.ckt.downstream = some s1 ∧
        s1.inbound =
          (E.steg_receive g ⟨s.cfg, some g, s.inbound, s.outbound⟩ c.up_output).2.2.1 := by
      by_cases h1 : ((with_registry E supported_stegs addr).steg_receive g
          { s with steg := some g } c.up_output).1 = .RECV_GOOD
      · by_cases h2 : c.up_input = []
        · obtain ⟨-, hnil, -, -⟩ := hidle h1 h2
          refine ⟨by simp [hnil], ?_⟩
          unfold conn_recv_detected at hr
          simp only [h1, h2, List.length_nil, ne_eq, not_true_eq_false, if_false, if_true,
            Except.ok.injEq] at hr
          subst hr
          exact ⟨_, rfl, rfl⟩
        · obtain ⟨sr, hsr, -, hnil, -, hckt, -, -⟩ := hsend h1 h2
          obtain ⟨-, -, hnd⟩ := circuit_send_calls_shape _ _ sr hsr
          refine ⟨by simp [hnil, hnd], ?_⟩
          obtain ⟨sr2, s2, hsr2, -, hd2, -, -, hin2⟩ := circuit_send_returns
            (with_registry E supported_stegs addr)
            { c with
              downstream := some { s with
                steg := some { g with obj :=
                  ((with_registry E supported_stegs addr).steg_receive g
                    { s with steg := some g } c.up_output).2.1 },
                inbound := ((with_registry E supported_stegs addr).steg_receive g
                  { s with steg := some g } c.up_output).2.2.1 },
              up_output := ((with_registry E supported_stegs addr).steg_receive g
                { s with steg := some g } c.up_output).2.2.2 } _ rfl
          rw [hsr] at hsr2
          simp only [Except.ok.injEq] at hsr2
          subst hsr2
          exact ⟨s2, by rw [hckt, hd2], hin2⟩
      · obtain ⟨-, hnil, -, -⟩ := hbad h1
        refine ⟨by simp [hnil], ?_⟩
        unfold conn_recv_detected at hr
        simp only [h1, ne_eq, not_false_eq_true, if_true, Except.ok.injEq] at hr
        subst hr
        exact ⟨_, rfl, rfl⟩
    obtain ⟨hnd, s1, hd1, hin1⟩ := hrest
    exact ⟨g, r, rest, s1, rfl, hrun.trans hr, by simpa using hcalls, hrc, hnd, hd1, hin1⟩

/-- C12 at a concrete input: inbound bytes that start with `71`. -/
theorem detection_keeps_inbound_witness :
    (steg_detect sample_registry 2 (sample_conn none [71, 72]) = none ∧
      x_dsteg_conn_recv (with_registry sample_env sample_registry 2)
          (sample_circuit (some (sample_conn none [71, 72])) [] none) =
        .ok ⟨.RECV_BAD, sample_circuit (some (sample_conn none [71, 72])) [] none,
          [.steg_detect]⟩) ∨
    (∃ g r rest s1, steg_detect sample_registry 2 (sample_conn none [71, 72]) = some g ∧
      x_dsteg_conn_recv (with_registry sample_env sample_registry 2)
          (sample_circuit (some (sample_conn none [71, 72])) [] none) = .ok r ∧
      r.calls = .steg_detect :: .steg_receive [71, 72] [] :: rest ∧
      receive_calls rest = 0 ∧ call.steg_detect ∉ rest ∧
      r.ckt.downstream = some s1 ∧
      s1.inbound = (sample_env.steg_receive g
        ⟨sample_server_config, some g, [71, 72], []⟩ []).2.2.1) :=
  detection_keeps_inbound sample_env sample_registry 2
    (sample_circuit (some (sample_conn none [71, 72])) [] none) (sample_conn none [71, 72])
    rfl rfl rfl (by decide)

/-- C13: on a connection that has a steg instance `g`, or gets `g` from
detection during the call, `x_dsteg_conn_recv` calls `steg_receive` exactly
once, on the connection `s0` carrying `g` and with the upstream-outbound
buffer of the circuit as destination.  If that call does not report
`RECV_GOOD`, its code is returned, no send is made and the upstream source
buffer and the flush timer are as before; if it reports `RECV_GOOD` and the
upstream source buffer is empty, `RECV_GOOD` is returned without a send; if
it reports `RECV_GOOD` and the upstream source buffer is not empty,
`x_dsteg_circuit_send` is called exactly once, on the circuit as receive
left it, and the result is `RECV_GOOD` when the send returns 0 and
`RECV_BAD` when it returns -1. -/
theorem conn_recv_flow (E : env σ) (c : circuit_t σ) (s s0 : x_dsteg_conn_t σ)
    (g : steg_t σ) (pre : List call) (hs : c.downstream = some s)
    (hdet : (s.steg = some g ∧ s0 = s ∧ pre = []) ∨
      (s.steg = none ∧ s.cfg.mode = .LSN_SIMPLE_SERVER ∧ s.inbound ≠ [] ∧
        E.steg_detect s = some g ∧ s0 = { s with steg := some g } ∧ pre = [.steg_detect])) :
    ∃ r rest, x_dsteg_conn_recv E c = .ok r ∧
      r.calls = pre ++ .steg_receive s.inbound c.up_output :: rest ∧
      receive_calls r.calls = 1 ∧
      ((E.steg_receive g s0 c.up_output).1 ≠ .RECV_GOOD →
        r.ret = (E.steg_receive g s0 c.up_output).1 ∧ circuit_send_calls r.calls = 0 ∧
        r.ckt.up_input = c.up_input ∧ r.ckt.flush_timer = c.flush_timer) ∧
      ((E.steg_receive g s0 c.up_output).1 = .RECV_GOOD → c.up_input = [] →
        r.ret = .RECV_GOOD ∧ circuit_send_calls r.calls = 0 ∧
        r.ckt.up_input = c.up_input ∧ r.ckt.flush_timer = c.flush_timer) ∧
      ((E.steg_receive g s0 c.up_output).1 = .RECV_GOOD → c.up_input ≠ [] →
        circuit_send_calls r.calls = 1 ∧
        ∃ sr, x_dsteg_circuit_send E
            { c with
              downstream := some { s0 with
                steg := some { g with obj := (E.steg_receive g s0 c.up_output).2.1 },
                inbound := (E.steg_receive g s0 c.up_output).2.2.1 },
              up_output := (E.steg_receive g s0 c.up_output).2.2.2 } = .ok sr ∧
          (sr.rv = 0 ∨ sr.rv = -1) ∧ r.ckt = sr.ckt ∧
          (sr.rv = 0 → r.ret = .RECV_GOOD) ∧ (sr.rv = -1 → r.ret = .RECV_BAD)) := by
  have hrun : x_dsteg_conn_recv E c = conn_recv_detected E c s0 g pre ∧
      s0.inbound = s.inbound ∧ receive_calls pre = 0 ∧ circuit_send_calls pre = 0 := by
    rcases hdet with ⟨hg, rfl, rfl⟩ | ⟨hg, hmode, hin, hd, rfl, rfl⟩
    · refine ⟨?_, rfl, rfl, rfl⟩
      simp only [x_dsteg_conn_recv, hs, hg]
    · exact ⟨conn_recv_detect_some E c s g hs hg hmode hin hd, rfl, rfl, rfl⟩
  obtain ⟨hrun, hinb, hpre1, hpre2⟩ := hrun
  obtain ⟨r, rest, hr, hcalls, hrc, hbad, hidle, hsend⟩ :=
    conn_recv_detected_outcome E c s0 g pre
  rw [hinb] at hcalls
  refine ⟨r, rest, hrun.trans hr, hcalls, ?_, fun h => ?_, fun h1 h2 => ?_, fun h1 h2 => ?_⟩
  · rw [hcalls, receive_calls_append, hpre1]
    simp [receive_calls, hrc]
  · obtain ⟨hret, hnil, hup, hft⟩ := hbad h
    refine ⟨hret, ?_, hup, hft⟩
    rw [hcalls, circuit_send_calls_append, hpre2, hnil]
    rfl
  · obtain ⟨hret, hnil, hup, hft⟩ := hidle h1 h2
    refine ⟨hret, ?_, hup, hft⟩
    rw [hcalls, circuit_send_calls_append, hpre2, hnil]
    rfl
  · obtain ⟨sr, hsr, hrv, hrest, hsc, hckt, h0, h1'⟩ := hsend h1 h2
    refine ⟨?_, sr, hsr, hrv, hckt, h0, h1'⟩
    rw [hcalls, circuit_send_calls_append, hpre2, hrest]
    simp [circuit_send_calls, hsc]

/-- C13 at a concrete input: a detected connection whose receive reports
`RECV_GOOD` while three upstream bytes are pending. -/
theorem conn_recv_flow_witness :
    ∃ r rest, x_dsteg_conn_recv sample_env
        (sample_circuit (some (sample_conn (some ⟨7, 1⟩) [71, 72])) [10, 20, 30] none) =
        .ok r ∧
      r.calls = [] ++ .steg_receive [71, 72] [] :: rest ∧
      receive_calls r.calls = 1 ∧
      ((sample_env.steg_receive ⟨7, 1⟩ (sample_conn (some ⟨7, 1⟩) [71, 72]) []).1 ≠
          .RECV_GOOD →
        r.ret = (sample_env.steg_receive ⟨7, 1⟩ (sample_conn (some ⟨7, 1⟩) [71, 72]) []).1 ∧
        circuit_send_calls r.calls = 0 ∧
        r.ckt.up_input = [10, 20, 30] ∧ r.ckt.flush_timer = none) ∧
      ((sample_env.steg_receive ⟨7, 1⟩ (sample_conn (some ⟨7, 1⟩) [71, 72]) []).1 =
          .RECV_GOOD → ([10, 20, 30] : evbuffer) = [] →
        r.ret = .RECV_GOOD ∧ circuit_send_calls r.calls = 0 ∧
        r.ckt.up_input = [10, 20, 30] ∧ r.ckt.flush_timer = none) ∧
      ((sample_env.steg_receive ⟨7, 1⟩ (sample_conn (some ⟨7, 1⟩) [71, 72]) []).1 =
          .RECV_GOOD → ([10, 20, 30] : evbuffer) ≠ [] →
        circuit_send_calls r.calls = 1 ∧
        ∃ sr, x_dsteg_circuit_send sample_env
            ⟨sample_server_config,
              some ⟨sample_server_config, some ⟨7, 1⟩, [], []⟩, [10, 20, 30], [71, 72],
              none⟩ = .ok sr ∧
          (sr.rv = 0 ∨ sr.rv = -1) ∧ r.ckt = sr.ckt ∧
          (sr.rv = 0 → r.ret = .RECV_GOOD) ∧ (sr.rv = -1 → r.ret = .RECV_BAD)) :=
  conn_recv_flow sample_env
    (sample_circuit (some (sample_conn (some ⟨7, 1⟩) [71, 72])) [10, 20, 30] none)
    (sample_conn (some ⟨7, 1⟩) [71, 72]) (sample_conn (some ⟨7, 1⟩) [71, 72]) ⟨7, 1⟩ []
    rfl (Or.inl ⟨rfl, rfl, rfl⟩)

end recv_theorems

section lifecycle_theorems

variable {σ : Type}

/-- C14: on a client- or socks-mode configuration `x_dsteg_conn_create` calls
`steg_new` on the configured scheme name and returns either a connection
that holds the new instance or, when `steg_new` yields nothing, no
connection; on a server-mode configuration it returns a connection without
an instance and does not call `steg_new`.  The configuration of a returned
connection is the one passed in. -/
theorem conn_create_by_mode (E : env σ) (cfg : x_dsteg_config_t) :
    ((cfg.mode = .LSN_SIMPLE_CLIENT ∨ cfg.mode = .LSN_SOCKS_CLIENT) →
      (∃ g, E.steg_new cfg.stegname = some g ∧
        x_dsteg_conn_create E cfg =
          (some ⟨cfg, some g, [], []⟩, [.steg_new cfg.stegname])) ∨
      (E.steg_new cfg.stegname = none ∧
        x_dsteg_conn_create E cfg = (none, [.steg_new cfg.stegname]))) ∧
    (cfg.mode = .LSN_SIMPLE_SERVER →
      x_dsteg_conn_create E cfg = (some ⟨cfg, none, [], []⟩, [])) ∧
    (∀ conn, (x_dsteg_conn_create E cfg).1 = some conn → conn.cfg = cfg) := by
  refine ⟨fun hmode => ?_, fun hmode => ?_, fun conn hconn => ?_⟩
  · have hne : cfg.mode ≠ .LSN_SIMPLE_SERVER := by
      rcases hmode with h | h <;> rw [h] <;> decide
    cases hnew : E.steg_new cfg.stegname with
    | none => exact Or.inr ⟨rfl, by simp [x_dsteg_conn_create, hne, hnew]⟩
    | some g => exact Or.inl ⟨g, rfl, by simp [x_dsteg_conn_create, hne, hnew]⟩
  · simp [x_dsteg_conn_create, hmode]
  · unfold x_dsteg_conn_create at hconn
    split_ifs at hconn
    · split at hconn
      · simp at hconn
      · simp only [Option.some.injEq] at hconn
        rw [← hconn]
    · simp only [Option.some.injEq] at hconn
      rw [← hconn]

/-- C15: `x_dsteg_conn_maybe_open_upstream` returns -1 exactly when
`circuit_create` fails, and then the connection is as before and neither
`circuit_add_downstream` nor `circuit_open_upstream` is called; otherwise it
returns 0 (the assertion of the binding does not fail), the new circuit has
exactly this connection as its downstream, and `circuit_open_upstream` is
called once, after the binding. -/
theorem maybe_open_upstream_outcome (create_ok : Bool) (conn : x_dsteg_conn_t σ) :
    (∃ r, x_dsteg_conn_maybe_open_upstream create_ok conn = .ok r ∧
      (r.rv = -1 ↔ create_ok = false)) ∧
    x_dsteg_conn_maybe_open_upstream false conn = .ok ⟨-1, conn, none, [.circuit_create]⟩ ∧
    x_dsteg_conn_maybe_open_upstream true conn =
      .ok ⟨0, conn, some ⟨conn.cfg, some conn, [], [], none⟩,
        [.circuit_create, .circuit_add_downstream, .circuit_open_upstream]⟩ := by
  refine ⟨?_, rfl, rfl⟩
  cases create_ok with
  | false => exact ⟨_, rfl, by simp⟩
  | true => exact ⟨_, rfl, by simp⟩

/-- The receive path returns and leaves a downstream connection with the
same configuration and with a steg instance. -/
theorem conn_recv_detected_downstream (E : env σ) (c : circuit_t σ) (s : x_dsteg_conn_t σ)
    (g : steg_t σ) (pre : List call) :
    ∃ r s1, conn_recv_detected E c s g pre = .ok r ∧ r.ckt.downstream = some s1 ∧
      s1.cfg = s.cfg ∧ s1.steg ≠ none := by
  unfold conn_recv_detected
  simp only
  split_ifs
  · exact ⟨_, _, rfl, rfl, rfl, by simp⟩
  · exact ⟨_, _, rfl, rfl, rfl, by simp⟩
  · obtain ⟨sr, s1, hsr, -, hd1, hcfg, hsteg, -⟩ := circuit_send_returns E
      { c with
        downstream := some { s with
          steg := some { g with obj := (E.steg_receive g s c.up_output).2.1 },
          inbound := (E.steg_receive g s c.up_output).2.2.1 },
        up_output := (E.steg_receive g s c.up_output).2.2.2 } _ rfl
    rw [hsr]
    exact ⟨_, s1, rfl, hd1, hcfg, fun h => by simpa using hsteg.mp h⟩

/-- One event on a circuit whose downstream connection belongs to `cfg` and
lacks a steg instance only in server mode: the call returns and the same
holds afterwards. -/
theorem step_keeps_mode (E : env σ) (op : conn_op) (c : circuit_t σ)
    (cfg : x_dsteg_config_t)
    (h : ∃ s, c.downstream = some s ∧ s.cfg = cfg ∧
      (s.steg = none → cfg.mode = .LSN_SIMPLE_SERVER)) :
    ∃ c1 calls, step E op c = .ok (c1, calls) ∧
      ∃ s1, c1.downstream = some s1 ∧ s1.cfg = cfg ∧
        (s1.steg = none → cfg.mode = .LSN_SIMPLE_SERVER) := by
  obtain ⟨s, hs, hcfg, hmode⟩ := h
  have hook : ∀ f : x_dsteg_conn_t σ → x_dsteg_conn_t σ, (∀ x, f x = x) →
      ∃ s1, (on_downstream f c).downstream = some s1 ∧ s1.cfg = cfg ∧
        (s1.steg = none → cfg.mode = .LSN_SIMPLE_SERVER) :=
    fun f hf => ⟨s, by simp [on_downstream, hs, hf], hcfg, hmode⟩
  cases op with
  | recv =>
    cases hg : s.steg with
    | none =>
      have hm : s.cfg.mode = .LSN_SIMPLE_SERVER := by rw [hcfg]; exact hmode hg
      by_cases hin : s.inbound = []
      · refine ⟨c, [], ?_, s, hs, hcfg, hmode⟩
        simp only [step, conn_recv_incomplete_on_empty E c s hs hg hm hin]
      · cases hdet : E.steg_detect s with
        | none =>
          refine ⟨c, [.steg_detect], ?_, s, hs, hcfg, hmode⟩
          simp only [step, conn_recv_detect_none E c s hs hg hm hin hdet]
        | some g =>
          obtain ⟨r, s1, hr, hd1, hc1, hs1⟩ :=
            conn_recv_detected_downstream E c { s with steg := some g } g [.steg_detect]
          refine ⟨r.ckt, r.calls, ?_, s1, hd1, hc1.trans hcfg, fun h0 => absurd h0 hs1⟩
          simp only [step, conn_recv_detect_some E c s g hs hg hm hin hdet, hr]
    | some g =>
      obtain ⟨r, s1, hr, hd1, hc1, hs1⟩ := conn_recv_detected_downstream E c s g []
      refine ⟨r.ckt, r.calls, ?_, s1, hd1, hc1.trans hcfg, fun h0 => absurd h0 hs1⟩
      simp only [step, x_dsteg_conn_recv, hs, hg, hr]
  | send =>
    obtain ⟨r, s1, hr, -, hd1, hc1, hsteg, -⟩ := circuit_send_returns E c s hs
    refine ⟨r.ckt, .circuit_send :: r.calls, ?_, s1, hd1, hc1.trans hcfg,
      fun h0 => hmode (hsteg.mp h0)⟩
    simp only [step, hr]
  | handshake => exact ⟨_, _, rfl, hook _ (fun _ => rfl)⟩
  | send_eof => exact ⟨_, _, rfl, hook _ (fun _ => rfl)⟩
  | recv_eof => exact ⟨_, _, rfl, hook _ (fun _ => rfl)⟩
  | expect_close => exact ⟨_, _, rfl, hook _ (fun _ => rfl)⟩
  | cease_transmission => exact ⟨_, _, rfl, hook _ (fun _ => rfl)⟩
  | close_after_transmit => exact ⟨_, _, rfl, hook _ (fun _ => rfl)⟩
  | transmit_soon t => exact ⟨_, _, rfl, hook _ (fun _ => rfl)⟩
  | bytes_arrive i u =>
    exact ⟨_, _, rfl, { s with inbound := s.inbound ++ i }, by simp [bytes_arrive, hs], hcfg,
      hmode⟩

/-- C19: for a connection that `x_dsteg_conn_create` returned for `cfg`,
placed as the downstream of a circuit, every sequence of
`x_dsteg_conn_recv` and `x_dsteg_circuit_send` calls (and of the other entry
points and byte arrivals) runs to its end, so no assertion fails, and the
connection afterwards still belongs to `cfg` and lacks a steg instance only
if the mode of `cfg` is `LSN_SIMPLE_SERVER`. -/
theorem undetected_only_in_server_mode (E0 : env σ) (cfg : x_dsteg_config_t)
    (conn : x_dsteg_conn_t σ) (hc : (x_dsteg_conn_create E0 cfg).1 = some conn)
    (c : circuit_t σ) (hd : c.downstream = some conn) (ops : List (env σ × conn_op)) :
    ∃ c1 s1 calls, run ops c = .ok (c1, calls) ∧ c1.downstream = some s1 ∧ s1.cfg = cfg ∧
      (s1.steg = none → cfg.mode = .LSN_SIMPLE_SERVER) := by
  have hinit : conn.cfg = cfg ∧ (conn.steg = none → cfg.mode = .LSN_SIMPLE_SERVER) := by
    unfold x_dsteg_conn_create at hc
    split_ifs at hc with hm
    · split at hc
      · simp at hc
      · simp only [Option.some.injEq] at hc
        subst hc
        exact ⟨rfl, fun h => by simp at h⟩
    · simp only [Option.some.injEq] at hc
      subst hc
      exact ⟨rfl, fun _ => not_not.mp hm⟩
  have main : ∀ (ops : List (env σ × conn_op)) (c : circuit_t σ),
      (∃ s, c.downstream = some s ∧ s.cfg = cfg ∧
        (s.steg = none → cfg.mode = .LSN_SIMPLE_SERVER)) →
      ∃ c1 calls, run ops c = .ok (c1, calls) ∧
        ∃ s1, c1.downstream = some s1 ∧ s1.cfg = cfg ∧
          (s1.steg = none → cfg.mode = .LSN_SIMPLE_SERVER) := by
    intro ops
    induction ops with
    | nil => exact fun c h => ⟨c, [], rfl, h⟩
    | cons eo rest ih =>
      intro c h
      obtain ⟨E, op⟩ := eo
      obtain ⟨c1, l1, e1, h1⟩ := step_keeps_mode E op c cfg h
      obtain ⟨c2, l2, e2, h2⟩ := ih c1 h1
      exact ⟨c2, l1 ++ l2, by simp only [run, e1, e2], h2⟩
  obtain ⟨c1, calls, e, s1, hs1, hcfg1, hm1⟩ := main ops c ⟨conn, hd, hinit.1, hinit.2⟩
  exact ⟨c1, s1, calls, e, hs1, hcfg1, hm1⟩

/-- C19 at a concrete input: a server-mode connection as
`x_dsteg_conn_create` returns it, bytes arriving, and receives and sends. -/
theorem undetected_only_in_server_mode_witness :
    ∃ c1 s1 calls,
      run [(sample_env, .recv), (sample_env, .bytes_arrive [71, 72] [10, 20, 30]),
          (sample_env, .send), (sample_env, .recv), (sample_env, .send)]
        (sample_circuit (some ⟨sample_server_config, none, [], []⟩) [] none) =
        .ok (c1, calls) ∧
      c1.downstream = some s1 ∧ s1.cfg = sample_server_config ∧
      (s1.steg = none → sample_server_config.mode = .LSN_SIMPLE_SERVER) :=
  undetected_only_in_server_mode sample_env sample_server_config
    ⟨sample_server_config, none, [], []⟩ rfl _ rfl _

/-- The conversion to an unsigned type yields a value of that type, which
is the argument itself when the argument is in the range of the type. -/
theorem to_unsigned_spec (bits : Nat) (x : Int) :
    ((to_unsigned bits x : Nat) : Int) = x % 2 ^ bits ∧
    to_unsigned bits x < 2 ^ bits ∧
    (0 ≤ x → x < 2 ^ bits → ((to_unsigned bits x : Nat) : Int) = x) := by
  have hpos : (0 : Int) < 2 ^ bits := by positivity
  have hnn : 0 ≤ x % 2 ^ bits := Int.emod_nonneg x (ne_of_gt hpos)
  have hcast : ((to_unsigned bits x : Nat) : Int) = x % 2 ^ bits := by
    unfold to_unsigned
    exact Int.toNat_of_nonneg hnn
  refine ⟨hcast, ?_, fun h0 h1 => ?_⟩
  · have hlt : x % 2 ^ bits < 2 ^ bits := Int.emod_lt_of_pos x hpos
    have : ((to_unsigned bits x : Nat) : Int) < ((2 ^ bits : Nat) : Int) := by
      rw [hcast]; exact_mod_cast hlt
    exact_mod_cast this
  · rw [hcast]
    exact Int.emod_eq_of_lt h0 h1

/-- C20, the claim as stated fails: in a build with a 32-bit `unsigned int`,
the descriptor generated for `mcci = 4294967296` holds 0 in
`max_corr_conns_per_ip`, not the argument. -/
theorem steg_define_module_wraps :
    (STEG_DEFINE_MODULE sample_widths sample_class 1000 2000 4294967296 1).max_corr_conns_per_ip
      = 0 ∧
    ¬ (((STEG_DEFINE_MODULE sample_widths sample_class 1000 2000 4294967296
      1).max_corr_conns_per_ip : Int) = 4294967296) := by
  decide

/-- C20, amended: the descriptor that `STEG_DEFINE_MODULE(mod, csm, scm,
mcci, mci)` generates has the identifier of `mod` as its name and, in
`max_c2s_rate`, `max_s2c_rate`, `max_corr_conns_per_ip`, `max_corr_ips`, the
arguments `csm`, `scm`, `mcci`, `mci` converted to the type of the field
(`size_t` for the first two, `unsigned int` for the last two), hence the
arguments themselves whenever they are in the range of that type; its
constructor `new_` yields, for both values of `b`, an instance whose
`is_clientside` is `b` and whose `name()` is the name of the descriptor; and
its `detect` entry returns what the static `detect` of `mod` returns. -/
theorem steg_define_module_descriptor {τ : Type} (W : c_widths) (mod : steg_class τ)
    (csm scm mcci mci : Int) :
    (STEG_DEFINE_MODULE W mod csm scm mcci mci).name = mod.ident ∧
    (((STEG_DEFINE_MODULE W mod csm scm mcci mci).max_c2s_rate : Int) =
        csm % 2 ^ W.size_t_bits ∧
      ((STEG_DEFINE_MODULE W mod csm scm mcci mci).max_s2c_rate : Int) =
        scm % 2 ^ W.size_t_bits ∧
      ((STEG_DEFINE_MODULE W mod csm scm mcci mci).max_corr_conns_per_ip : Int) =
        mcci % 2 ^ W.unsigned_int_bits ∧
      ((STEG_DEFINE_MODULE W mod csm scm mcci mci).max_corr_ips : Int) =
        mci % 2 ^ W.unsigned_int_bits) ∧
    ((0 ≤ csm → csm < 2 ^ W.size_t_bits →
        ((STEG_DEFINE_MODULE W mod csm scm mcci mci).max_c2s_rate : Int) = csm) ∧
      (0 ≤ scm → scm < 2 ^ W.size_t_bits →
        ((STEG_DEFINE_MODULE W mod csm scm mcci mci).max_s2c_rate : Int) = scm) ∧
      (0 ≤ mcci → mcci < 2 ^ W.unsigned_int_bits →
        ((STEG_DEFINE_MODULE W mod csm scm mcci mci).max_corr_conns_per_ip : Int) = mcci) ∧
      (0 ≤ mci → mci < 2 ^ W.unsigned_int_bits →
        ((STEG_DEFINE_MODULE W mod csm scm mcci mci).max_corr_ips : Int) = mci)) ∧
    (∀ b, ((STEG_DEFINE_MODULE W mod csm scm mcci mci).new_ b).is_clientside = b ∧
      ((STEG_DEFINE_MODULE W mod csm scm mcci mci).new_ b).name =
        (STEG_DEFINE_MODULE W mod csm scm mcci mci).name ∧
      ((STEG_DEFINE_MODULE W mod csm scm mcci mci).new_ b).members = mod.members) ∧
    (∀ conn, (STEG_DEFINE_MODULE W mod csm scm mcci mci).detect conn = mod.detect conn) :=
  ⟨rfl,
    ⟨(to_unsigned_spec _ csm).1, (to_unsigned_spec _ scm).1, (to_unsigned_spec _ mcci).1,
      (to_unsigned_spec _ mci).1⟩,
    ⟨(to_unsigned_spec _ csm).2.2, (to_unsigned_spec _ scm).2.2, (to_unsigned_spec _ mcci).2.2,
      (to_unsigned_spec _ mci).2.2⟩,
    fun _ => ⟨rfl, rfl, rfl⟩, fun _ => rfl⟩

/-- C20, amended, at a concrete input: limits in range are carried as they
are, and the constructor tags the instance with either side. -/
theorem steg_define_module_descriptor_witness :
    (STEG_DEFINE_MODULE sample_widths sample_class 1000 2000 3 4).name = "x_http" ∧
    ((STEG_DEFINE_MODULE sample_widths sample_class 1000 2000 3 4).max_c2s_rate : Int) = 1000 ∧
    ((STEG_DEFINE_MODULE sample_widths sample_class 1000 2000 3 4).max_s2c_rate : Int) = 2000 ∧
    ((STEG_DEFINE_MODULE sample_widths sample_class 1000 2000 3
      4).max_corr_conns_per_ip : Int) = 3 ∧
    ((STEG_DEFINE_MODULE sample_widths sample_class 1000 2000 3 4).max_corr_ips : Int) = 4 ∧
    ((STEG_DEFINE_MODULE sample_widths sample_class 1000 2000 3 4).new_ true).is_clientside =
      true ∧
    ((STEG_DEFINE_MODULE sample_widths sample_class 1000 2000 3 4).new_ false).is_clientside =
      false ∧
    ((STEG_DEFINE_MODULE sample_widths sample_class 1000 2000 3 4).new_ true).name =
      "x_http" := by
  obtain ⟨hname, -, ⟨h1, h2, h3, h4⟩, hnew, -⟩ :=
    steg_define_module_descriptor sample_widths sample_class 1000 2000 3 4
  exact ⟨hname, h1 (by decide) (by decide), h2 (by decide) (by decide),
    h3 (by decide) (by decide), h4 (by decide) (by decide), (hnew true).1, (hnew false).1,
    (hnew true).2.1.trans hname⟩

end lifecycle_theorems

end XDsteg
